import Mathlib

/-!
Shallow embedding of `src/server/api/services/query-builder.ts`.

A Prisma `Sql` value is a template: literal text pieces interleaved with
bound values. We model it as a list of fragments; `Prisma.raw s` is a
single raw fragment, a value interpolated into a template becomes a
`param` fragment, nested `Sql` values are flattened, and `Prisma.empty`
is the empty list.  The rendered statement text uses `?` placeholders
(Prisma's `Sql.sql` rendering); the bound-parameter list is the ordered
list of `param` fragments.

The query value mirrors the zod-validated `sqlInterface` shape: all
functions here receive already-validated data, so the `sqlInterface.parse`
re-validation calls in the source are the identity and are not repeated.
The table registry (`tableDefinitions.ts`) is not part of the provided
sources; per the spec it is a static lookup consumed only through its
interface, so the development is parameterized by a `Registry` value.
-/

namespace QueryBuilder

/-- A bound literal value: filter values are strings, numbers or
datetimes, and the limit is bound as a number. -/
inductive Value where
  | str (s : String)
  | num (n : Int)
  | date (d : String)
deriving DecidableEq, Repr

/-- One piece of a Prisma `Sql` template: raw text or a bound value. -/
inductive Frag where
  | raw (s : String)
  | param (v : Value)
deriving DecidableEq, Repr

/-- A Prisma `Sql` value, flattened into its fragments. -/
abbrev Sql := List Frag

/-- Text of one fragment: raw text verbatim, a `?` placeholder for a
bound value. -/
def fragText : Frag → String
  | .raw s => s
  | .param _ => "?"

/-- The rendered statement text of a `Sql` value. -/
def textOf (s : Sql) : String :=
  s.foldr (fun f acc => fragText f ++ acc) ""

/-- The ordered bound-parameter list of a `Sql` value. -/
def paramsOf (s : Sql) : List Value :=
  s.filterMap (fun f => match f with | .param v => some v | .raw _ => none)

/-- `CompiledStatement`: parameterized text plus ordered bound values. -/
structure CompiledStatement where
  text : String
  parameters : List Value
deriving DecidableEq, Repr

/-- Render a `Sql` value to a `CompiledStatement`. -/
def compile (s : Sql) : CompiledStatement :=
  { text := textOf s, parameters := paramsOf s }

/-- `Prisma.join(xs, sep)`: interleave a raw separator. -/
def joinFrags (sep : String) : List Sql → Sql
  | [] => []
  | [s] => s
  | s :: t :: rest => s ++ Frag.raw sep :: joinFrags sep (t :: rest)

/-- `ColumnDefinition` from `tableDefinition.ts`: logical name and the
internal SQL expression. -/
structure ColumnDefinition where
  name : String
  internal : String
deriving DecidableEq, Repr

/-- `TableDefinition`: physical source expression and allowed columns. -/
structure TableDefinition where
  table : String
  columns : List ColumnDefinition
deriving DecidableEq, Repr

/-- The closed set of logical tables of `sqlInterface.shape.from`
(exactly the cases of `getMandatoryFilter`). -/
inductive TableFrom where
  | traces
  | traces_observations
  | traces_scores
  | traces_parent_observation_scores
  | observations
deriving DecidableEq, Repr

/-- The static table registry (`tableDefinitions`), consumed only as a
lookup from logical table to `TableDefinition`. -/
abbrev Registry := TableFrom → TableDefinition

/-- Filter kinds of the `filterInterface` union. -/
inductive FilterType where
  | string
  | number
  | datetime
deriving DecidableEq, Repr

/-- A validated `singleFilter`. -/
structure Filter where
  type : FilterType
  column : String
  operator : String
  value : Value
deriving DecidableEq, Repr

/-- GroupBy kinds of `groupByInterface`. -/
inductive GroupByType where
  | string
  | number
  | datetime
deriving DecidableEq, Repr

/-- A validated groupBy entry; `temporalUnit` is present exactly on the
datetime variant (the source tests `"temporalUnit" in groupByColumn`). -/
structure GroupByEntry where
  type : GroupByType
  column : String
  temporalUnit : Option String
deriving DecidableEq, Repr

/-- A validated select field: column plus optional aggregation. -/
structure SelectField where
  column : String
  agg : Option String
deriving DecidableEq, Repr

/-- A validated orderBy entry. -/
structure OrderBySpec where
  column : String
  agg : Option String
  direction : String
deriving DecidableEq, Repr

/-- A validated query (`z.TypeOf<typeof sqlInterface>`); `from` is
spelled `fromTable` because `from` is a Lean keyword. -/
structure Query where
  fromTable : TableFrom
  select : List SelectField
  filter : Option (List Filter)
  groupBy : Option (List GroupByEntry)
  orderBy : Option (List OrderBySpec)
  limit : Option Nat
deriving DecidableEq, Repr

/-- Errors thrown by the query builder (`throw new Error(...)` sites). -/
inductive QueryError where
  /-- `Column ${filter.column} not found` (prepareFilterString). -/
  | columnNotFound (column : String)
  /-- `Column ${column} not found in table ${table}` (getColumnDefinition). -/
  | columnNotFoundInTable (column : String)
  /-- `Only one datetime group by is supported`. -/
  | multipleDatetimeGroupBy
  /-- `Min date column, max date column must match group by column`. -/
  | mismatchedRangeColumn
deriving DecidableEq, Repr

/-- `array.map(g)` over a throwing body: stop at the first error. -/
def mapExcept (g : α → Except QueryError β) : List α → Except QueryError (List β)
  | [] => .ok []
  | a :: as =>
    match g a with
    | .error e => .error e
    | .ok b =>
      match mapExcept g as with
      | .error e => .error e
      | .ok bs => .ok (b :: bs)

/-- `getTableSql`: the registry's physical source as a raw fragment. -/
def getTableSql (defs : Registry) (t : TableFrom) : Sql :=
  [.raw (defs t).table]

/-- `getColumnDefinition`: resolve a column name in a table, failing
with the `not found in table` error. -/
def getColumnDefinition (defs : Registry) (t : TableFrom) (column : String) :
    Except QueryError ColumnDefinition :=
  match (defs t).columns.find? (fun c => decide (c.name = column)) with
  | some c => .ok c
  | none => .error (.columnNotFoundInTable column)

/-- `str.toLowerCase()`: lower-case each character. -/
def toLowerString (s : String) : String :=
  String.mk (s.data.map Char.toLower)

/-- `capitalizeFirstLetter`: `str.charAt(0).toUpperCase() + str.slice(1)`. -/
def capitalizeFirstLetter (s : String) : String :=
  match s.data with
  | [] => ""
  | c :: rest => String.mk (c.toUpper :: rest)

/-- The body of `createQuery`'s `query.select.map(...)`: compile one
select field, with the aggregation alias `agg.toLowerCase() +
capitalizeFirstLetter(name)` or the bare column alias. -/
def compileSelectField (defs : Registry) (t : TableFrom) (f : SelectField) :
    Except QueryError Sql := do
  let safeColumn ← getColumnDefinition defs t f.column
  match f.agg with
  | some agg =>
      pure [.raw agg, .raw "(", .raw safeColumn.internal, .raw ") as \"",
            .raw (toLowerString agg), .raw (capitalizeFirstLetter safeColumn.name), .raw "\""]
  | none =>
      pure [.raw safeColumn.internal, .raw " as \"", .raw safeColumn.name, .raw "\""]

/-- The series column pushed in front of the select list when a CTE
exists: `date_series."date" as "<name>"`. -/
def seriesSelect (name : String) : Sql :=
  [.raw "date_series.\"date\" as \"", .raw name, .raw "\""]

/-- `createAggregatedColumn`: aggregation applied to the internal column
expression, or the bare expression. -/
def createAggregatedColumn (defs : Registry) (t : TableFrom) (column : String)
    (agg : Option String) : Except QueryError Sql := do
  let c ← getColumnDefinition defs t column
  match agg with
  | some a => pure [.raw a, .raw "(", .raw c.internal, .raw ")"]
  | none => pure [.raw c.internal]

/-- One orderBy term: aggregated column followed by the direction. -/
def compileOrderBy (defs : Registry) (t : TableFrom) (ob : OrderBySpec) :
    Except QueryError Sql := do
  let c ← createAggregatedColumn defs t ob.column ob.agg
  pure (c ++ [.raw " ", .raw ob.direction])

/-- `prepareOrderByString`: terms of `orderBy ?? []`, with
`date_series."date" ASC` put first when a CTE exists. -/
def prepareOrderByString (defs : Registry) (t : TableFrom)
    (orderBy : Option (List OrderBySpec)) (hasCte : Bool) :
    Except QueryError Sql := do
  let orderBys ← mapExcept (compileOrderBy defs t) (orderBy.getD [])
  let addedCte := if hasCte then [Frag.raw "date_series.\"date\" ASC"] :: orderBys else orderBys
  pure (if addedCte.length > 0 then Frag.raw " ORDER BY " :: joinFrags ", " addedCte else [])

/-- One filter predicate of `prepareFilterString`: internal column, raw
operator, bound value, and the `::"ObservationType"` cast suffix for the
`type` column of the observations table. -/
def compileFilter (t : TableFrom) (cols : List ColumnDefinition) (f : Filter) :
    Except QueryError Sql :=
  match cols.find? (fun c => decide (c.name = f.column)) with
  | none => .error (.columnNotFound f.column)
  | some column =>
    if f.type = FilterType.datetime then
      .ok [.raw column.internal, .raw " ", .raw f.operator, .raw " ", .param f.value]
    else
      .ok ([.raw column.internal, .raw " ", .raw f.operator, .raw " ", .param f.value, .raw " "] ++
        (if column.name = "type" ∧ t = TableFrom.observations then
          [Frag.raw "::\"ObservationType\""] else []))

/-- `prepareFilterString`: the AND-joined filter predicates. -/
def prepareFilterString (t : TableFrom) (filters : List Filter)
    (cols : List ColumnDefinition) : Except QueryError Sql := do
  let fs ← mapExcept (compileFilter t cols) filters
  pure (joinFrags " AND " fs)

/-- `prepareGroupBy`: resolve the column (this may throw), then emit the
series column for datetime entries and the internal expression else. -/
def prepareGroupBy (defs : Registry) (t : TableFrom) (g : GroupByEntry) :
    Except QueryError Sql := do
  let colDef ← getColumnDefinition defs t g.column
  if g.type = GroupByType.datetime then
    pure [Frag.raw "date_series.\"date\""]
  else
    pure [Frag.raw colDef.internal]

/-- Lower-bound operator test of `createDateRangeCte`. -/
def isLowerOp (f : Filter) : Bool :=
  decide (f.operator = ">") || decide (f.operator = ">=")

/-- Upper-bound operator test of `createDateRangeCte`. -/
def isUpperOp (f : Filter) : Bool :=
  decide (f.operator = "<") || decide (f.operator = "<=")

/-- The value returned by `createDateRangeCte` when a bucket plan
exists: the CTE text, the replacement FROM (date series left join) and
the resolved datetime column. -/
structure DateRangeCte where
  cte : Sql
  fromJoin : Sql
  column : ColumnDefinition
deriving DecidableEq, Repr

/-- `filters.filter(isTimeRangeFilter)`. -/
def dateTimeFiltersOf (filters : List Filter) : List Filter :=
  filters.filter (fun f => decide (f.type = FilterType.datetime))

/-- `minDateColumn`: the lower-bound filter, looked up only when more
than one datetime filter exists. -/
def minDateFilter (dtf : List Filter) : Option Filter :=
  if dtf.length > 1 then dtf.find? isLowerOp else none

/-- `maxDateColumn`: the upper-bound filter under the same guard. -/
def maxDateFilter (dtf : List Filter) : Option Filter :=
  if dtf.length > 1 then dtf.find? isUpperOp else none

/-- `createDateRangeCte`: detect a single datetime group-by with a
matched min/max datetime filter pair and build the generate_series CTE
and the left-join FROM clause. -/
def createDateRangeCte (defs : Registry) (t : TableFrom)
    (filters : List Filter) (groupBy : List GroupByEntry) :
    Except QueryError (Option DateRangeCte) :=
  match groupBy.filter (fun g => decide (g.type = GroupByType.datetime)) with
  | [] => .ok none
  | _ :: _ :: _ => .error .multipleDatetimeGroupBy
  | [gb] =>
    match gb.temporalUnit, minDateFilter (dateTimeFiltersOf filters),
        maxDateFilter (dateTimeFiltersOf filters) with
    | some unit, some lo, some hi =>
      if lo.column ≠ gb.column ∨ hi.column ≠ gb.column then
        .error .mismatchedRangeColumn
      else
        match getColumnDefinition defs t lo.column with
        | .error e => .error e
        | .ok startColumn =>
          .ok (some
            { cte := [.raw "\n      WITH date_series AS (\n        SELECT generate_series(",
                      .param lo.value, .raw ", ", .param hi.value, .raw ", '1 ",
                      .raw unit, .raw "') as date\n      )\n    "],
              fromJoin := [Frag.raw " FROM date_series LEFT JOIN "] ++ getTableSql defs t ++
                [.raw " ON DATE_TRUNC('", .raw unit, .raw "', ", .raw startColumn.internal,
                 .raw ") = DATE_TRUNC('", .raw unit, .raw "', date_series.\"date\")"],
              column := startColumn })
    | _, _, _ => .ok none

/-- The LIMIT clause: emitted only when `query.limit` is truthy, i.e.
present and nonzero. -/
def limitFrags : Option Nat → Sql
  | some n => if n = 0 then [] else [.raw " LIMIT ", .param (.num (n : Int))]
  | none => []

/-- The WHERE/AND filter clause of `createQuery`: present when
`query.filter && query.filter.length > 0`, introduced by ` AND ` when a
CTE exists and by ` WHERE ` otherwise. -/
def filterClause (defs : Registry) (t : TableFrom)
    (filter : Option (List Filter)) (hasCte : Bool) : Except QueryError Sql :=
  match filter with
  | some fs =>
    if fs.length > 0 then do
      let fsql ← prepareFilterString t fs (defs t).columns
      pure (Frag.raw " " :: Frag.raw (if hasCte then " AND " else " WHERE ") :: Frag.raw " " :: fsql)
    else pure []
  | none => pure []

/-- The GROUP BY clause of `createQuery`: computed when the query has
explicit groupBy entries or a CTE exists. -/
def groupClause (defs : Registry) (t : TableFrom)
    (groupBy : Option (List GroupByEntry)) (hasCte : Bool) : Except QueryError Sql :=
  if (groupBy.getD []).length > 0 ∨ hasCte then do
    let gs ← mapExcept (prepareGroupBy defs t) (groupBy.getD [])
    pure (if gs.length > 0 then Frag.raw " GROUP BY " :: joinFrags ", " gs else [])
  else pure []

/-- The SELECT clause of `createQuery` over the final select fields
(series column already prepended when a CTE exists). -/
def selectClause (fields : List Sql) : Sql :=
  if fields.length > 0 then Frag.raw " SELECT " :: joinFrags ", " fields else []

/-- `cte?.cte ?? Prisma.empty`. -/
def ctePart : Option DateRangeCte → Sql
  | some c => c.cte
  | none => []

/-- `selectFields` after the `unshift` of the series column. -/
def selectFieldsWithCte (cte : Option DateRangeCte) (us : List Sql) : List Sql :=
  match cte with
  | some c => seriesSelect c.column.name :: us
  | none => us

/-- `fromString`: the CTE's join when present, the plain table else. -/
def fromPart (defs : Registry) (t : TableFrom) : Option DateRangeCte → Sql
  | some c => c.fromJoin
  | none => Frag.raw " FROM " :: getTableSql defs t

/-- `createQuery`: assemble CTE, SELECT, FROM, WHERE/AND, GROUP BY,
ORDER BY and LIMIT, in the source's evaluation order. -/
def createQuery (defs : Registry) (q : Query) : Except QueryError Sql := do
  let cte ← createDateRangeCte defs q.fromTable (q.filter.getD []) (q.groupBy.getD [])
  let us ← mapExcept (compileSelectField defs q.fromTable) q.select
  let selectFields := selectFieldsWithCte cte us
  let groupString ← groupClause defs q.fromTable q.groupBy cte.isSome
  let selectString := selectClause selectFields
  let orderByString ← prepareOrderByString defs q.fromTable q.orderBy cte.isSome
  let filterString ← filterClause defs q.fromTable q.filter cte.isSome
  let fromString := fromPart defs q.fromTable cte
  let limitString := limitFrags q.limit
  pure (ctePart cte ++ selectString ++ fromString ++ filterString ++ groupString ++
    orderByString ++ limitString ++ [Frag.raw ";"])

/-- `getMandatoryFilter`: the tenant filters per logical table. -/
def getMandatoryFilter (t : TableFrom) (projectId : String) : List Filter :=
  let observationFilter : Filter :=
    { type := .string, column := "observationsProjectId", operator := "=", value := .str projectId }
  let traceFilter : Filter :=
    { type := .string, column := "tracesProjectId", operator := "=", value := .str projectId }
  match t with
  | .traces => [traceFilter]
  | .traces_scores => [traceFilter]
  | .traces_observations => [traceFilter, observationFilter]
  | .traces_parent_observation_scores => [traceFilter, observationFilter]
  | .observations => [observationFilter]

/-- `enrichAndCreateQuery`: append the mandatory tenant filters to the
user filter list and compile. -/
def enrichAndCreateQuery (defs : Registry) (projectId : String) (q : Query) :
    Except QueryError Sql :=
  createQuery defs
    { q with filter := some (q.filter.getD [] ++ getMandatoryFilter q.fromTable projectId) }

/-- A raw database cell (`InternalDatabaseRow` values at runtime):
bigint, native number, `Decimal`, string, `Date`, null, or any other
runtime value (carrying its `typeof` tag). Numeric payloads are modelled
as rationals; `Decimal.toNumber` is exact on the values considered. -/
inductive Cell where
  | bigint (i : Int)
  | number (x : Rat)
  | decimal (x : Rat)
  | str (s : String)
  | date (d : String)
  | null
  | other (tag : String)
deriving DecidableEq, Repr

/-- A normalized output cell (`DatabaseRow` values). -/
inductive OutCell where
  | number (x : Rat)
  | str (s : String)
  | date (d : String)
  | null
deriving DecidableEq, Repr

/-- The per-cell branch chain of `outputParser`. -/
def parseCell : Cell → Except String OutCell
  | .bigint i => .ok (.number (i : Rat))
  | .number x => .ok (.number x)
  | .decimal x => .ok (.number x)
  | .str s => .ok (.str s)
  | .date d => .ok (.date d)
  | .null => .ok .null
  | .other tag => .error ("Unknown type " ++ tag)

/-- A raw row: ordered key/cell pairs. -/
abbrev InternalRow := List (String × Cell)

/-- A normalized row. -/
abbrev OutRow := List (String × OutCell)

/-- One row of `outputParser`'s outer map. -/
def parseRow : InternalRow → Except String OutRow
  | [] => .ok []
  | (k, v) :: rest =>
    match parseCell v with
    | .error e => .error e
    | .ok w =>
      match parseRow rest with
      | .error e => .error e
      | .ok ws => .ok ((k, w) :: ws)

/-- `outputParser`: normalize every row, failing on the first cell of an
unknown runtime type. -/
def outputParser : List InternalRow → Except String (List OutRow)
  | [] => .ok []
  | r :: rs =>
    match parseRow r with
    | .error e => .error e
    | .ok w =>
      match outputParser rs with
      | .error e => .error e
      | .ok ws => .ok (w :: ws)

/-- Modelled from the spec: a fixture registry. The registry module
(`tableDefinitions`) is outside the provided sources and the spec
specifies it only at its interface — a static lookup from logical table
to physical source and allowed columns (§4.2) — so concrete instances
below use this fixture; the general theorems are quantified over every
registry. -/
def sampleDefs : Registry := fun t =>
  match t with
  | .traces =>
    { table := "traces t",
      columns := [{ name := "id", internal := "t.\"id\"" },
                  { name := "timestamp", internal := "t.\"timestamp\"" },
                  { name := "amount", internal := "t.\"amount\"" },
                  { name := "tracesProjectId", internal := "t.\"project_id\"" }] }
  | .traces_scores =>
    { table := "traces t JOIN scores s ON t.\"id\" = s.\"trace_id\"",
      columns := [{ name := "value", internal := "s.\"value\"" },
                  { name := "timestamp", internal := "t.\"timestamp\"" },
                  { name := "tracesProjectId", internal := "t.\"project_id\"" }] }
  | .traces_observations =>
    { table := "traces t JOIN observations o ON t.\"id\" = o.\"trace_id\"",
      columns := [{ name := "duration", internal := "o.\"duration\"" },
                  { name := "timestamp", internal := "t.\"timestamp\"" },
                  { name := "tracesProjectId", internal := "t.\"project_id\"" },
                  { name := "observationsProjectId", internal := "o.\"project_id\"" }] }
  | .traces_parent_observation_scores =>
    { table := "traces t JOIN observations o ON t.\"id\" = o.\"trace_id\" JOIN scores s ON t.\"id\" = s.\"trace_id\"",
      columns := [{ name := "value", internal := "s.\"value\"" },
                  { name := "timestamp", internal := "t.\"timestamp\"" },
                  { name := "tracesProjectId", internal := "t.\"project_id\"" },
                  { name := "observationsProjectId", internal := "o.\"project_id\"" }] }
  | .observations =>
    { table := "observations o",
      columns := [{ name := "id", internal := "o.\"id\"" },
                  { name := "type", internal := "o.\"type\"" },
                  { name := "startTime", internal := "o.\"start_time\"" },
                  { name := "observationsProjectId", internal := "o.\"project_id\"" }] }

/-! ### Generic lemmas about the Sql representation -/

theorem textOf_append (a b : Sql) : textOf (a ++ b) = textOf a ++ textOf b := by
  induction a with
  | nil => simp [textOf]
  | cons f fs ih =>
    simp only [textOf, List.foldr_cons, List.cons_append] at *
    rw [ih, String.append_assoc]

theorem paramsOf_append (a b : Sql) : paramsOf (a ++ b) = paramsOf a ++ paramsOf b := by
  simp [paramsOf, List.filterMap_append]

theorem paramsOf_raw (s : String) : paramsOf [Frag.raw s] = [] := rfl

theorem paramsOf_joinFrags (sep : String) (xs : List Sql) :
    paramsOf (joinFrags sep xs) = (xs.map paramsOf).flatten := by
  induction xs with
  | nil => simp [joinFrags, paramsOf]
  | cons x xs ih =>
    cases xs with
    | nil => simp [joinFrags, paramsOf]
    | cons y ys =>
      simp only [joinFrags, List.map_cons, List.flatten_cons] at *
      rw [paramsOf_append, show (Frag.raw sep :: joinFrags sep (y :: ys)) =
        [Frag.raw sep] ++ joinFrags sep (y :: ys) from rfl, paramsOf_append, ih]
      simp [paramsOf]

/-- String-level separator join, the image of `joinFrags` under
`textOf`. -/
def sepJoin (sep : String) : List String → String
  | [] => ""
  | [s] => s
  | s :: t :: rest => s ++ sep ++ sepJoin sep (t :: rest)

theorem textOf_joinFrags (sep : String) (xs : List Sql) :
    textOf (joinFrags sep xs) = sepJoin sep (xs.map textOf) := by
  induction xs with
  | nil => simp [joinFrags, textOf, sepJoin]
  | cons x xs ih =>
    cases xs with
    | nil => simp [joinFrags, sepJoin]
    | cons y ys =>
      simp only [joinFrags, List.map_cons, sepJoin] at *
      rw [textOf_append, show (Frag.raw sep :: joinFrags sep (y :: ys)) =
        [Frag.raw sep] ++ joinFrags sep (y :: ys) from rfl, textOf_append, ih]
      simp [textOf, fragText, String.append_assoc]

/-! ### Except and mapExcept machinery -/

theorem bind_ok {α β : Type} {x : Except QueryError α} {f : α → Except QueryError β} {b : β}
    (h : (x >>= f) = .ok b) : ∃ a, x = .ok a ∧ f a = .ok b := by
  cases x with
  | ok a => exact ⟨a, rfl, h⟩
  | error e => exact absurd h (by simp [Bind.bind, Except.bind])

theorem mapExcept_ok_forall₂ {g : α → Except QueryError β} {l : List α} {ys : List β}
    (h : mapExcept g l = .ok ys) :
    List.Forall₂ (fun a b => g a = .ok b) l ys := by
  induction l generalizing ys with
  | nil =>
    simp only [mapExcept, Except.ok.injEq] at h
    subst h; exact .nil
  | cons a as ih =>
    simp only [mapExcept] at h
    cases hg : g a with
    | error e => rw [hg] at h; exact absurd h (by simp)
    | ok b =>
      rw [hg] at h
      cases hm : mapExcept g as with
      | error e => rw [hm] at h; exact absurd h (by simp)
      | ok bs =>
        rw [hm] at h
        simp only [Except.ok.injEq] at h
        subst h
        exact .cons hg (ih hm)

theorem mapExcept_of_forall₂ {g : α → Except QueryError β} {l : List α} {ys : List β}
    (h : List.Forall₂ (fun a b => g a = .ok b) l ys) :
    mapExcept g l = .ok ys := by
  induction h with
  | nil => rfl
  | cons hg _ ih => simp only [mapExcept]; rw [hg, ih]

theorem mapExcept_length {g : α → Except QueryError β} {l : List α} {ys : List β}
    (h : mapExcept g l = .ok ys) : ys.length = l.length :=
  ((mapExcept_ok_forall₂ h).length_eq).symm

/-! ### Parameter lists of the individual clauses -/

theorem paramsOf_getTableSql (defs : Registry) (t : TableFrom) :
    paramsOf (getTableSql defs t) = [] := rfl

theorem compileSelectField_params {defs : Registry} {t : TableFrom} {f : SelectField} {s : Sql}
    (h : compileSelectField defs t f = .ok s) : paramsOf s = [] := by
  unfold compileSelectField at h
  obtain ⟨cd, _, h⟩ := bind_ok h
  cases hf : f.agg with
  | some a => rw [hf] at h; simp only [pure, Except.pure, Except.ok.injEq] at h; subst h; rfl
  | none => rw [hf] at h; simp only [pure, Except.pure, Except.ok.injEq] at h; subst h; rfl

theorem prepareGroupBy_params {defs : Registry} {t : TableFrom} {g : GroupByEntry} {s : Sql}
    (h : prepareGroupBy defs t g = .ok s) : paramsOf s = [] := by
  unfold prepareGroupBy at h
  obtain ⟨cd, _, h⟩ := bind_ok h
  split at h <;>
    (simp only [pure, Except.pure, Except.ok.injEq] at h; subst h; rfl)

theorem createAggregatedColumn_params {defs : Registry} {t : TableFrom} {column : String}
    {agg : Option String} {s : Sql}
    (h : createAggregatedColumn defs t column agg = .ok s) : paramsOf s = [] := by
  unfold createAggregatedColumn at h
  obtain ⟨cd, _, h⟩ := bind_ok h
  cases agg with
  | some a => simp only [pure, Except.pure, Except.ok.injEq] at h; subst h; rfl
  | none => simp only [pure, Except.pure, Except.ok.injEq] at h; subst h; rfl

theorem compileOrderBy_params {defs : Registry} {t : TableFrom} {ob : OrderBySpec} {s : Sql}
    (h : compileOrderBy defs t ob = .ok s) : paramsOf s = [] := by
  unfold compileOrderBy at h
  obtain ⟨c, hc, h⟩ := bind_ok h
  simp only [pure, Except.pure, Except.ok.injEq] at h
  subst h
  rw [paramsOf_append, createAggregatedColumn_params hc]
  rfl

theorem forall₂_mem_right {R : α → β → Prop} {l₁ : List α} {l₂ : List β}
    (h : List.Forall₂ R l₁ l₂) {b : β} (hb : b ∈ l₂) : ∃ a ∈ l₁, R a b := by
  induction h with
  | nil => exact absurd hb (List.not_mem_nil b)
  | cons hr _ ih =>
    rcases List.mem_cons.mp hb with h1 | h2
    · subst h1; exact ⟨_, List.mem_cons_self .., hr⟩
    · obtain ⟨a, ha, har⟩ := ih h2
      exact ⟨a, List.mem_cons_of_mem _ ha, har⟩

theorem paramsOf_joinFrags_nil (sep : String) {xs : List Sql}
    (h : ∀ x ∈ xs, paramsOf x = []) : paramsOf (joinFrags sep xs) = [] := by
  rw [paramsOf_joinFrags]
  simp only [List.flatten_eq_nil_iff, List.mem_map]
  rintro l ⟨x, hx, rfl⟩
  exact h x hx

theorem paramsOf_headJoin_nil (hd : String) {xs : List Sql}
    (h : ∀ x ∈ xs, paramsOf x = []) :
    paramsOf (if xs.length > 0 then Frag.raw hd :: joinFrags ", " xs else []) = [] := by
  split
  · rw [show (Frag.raw hd :: joinFrags ", " xs : Sql) = [Frag.raw hd] ++ joinFrags ", " xs from rfl,
      paramsOf_append, paramsOf_joinFrags_nil _ h]
    rfl
  · rfl

theorem prepareOrderByString_params {defs : Registry} {t : TableFrom}
    {orderBy : Option (List OrderBySpec)} {hasCte : Bool} {s : Sql}
    (h : prepareOrderByString defs t orderBy hasCte = .ok s) : paramsOf s = [] := by
  unfold prepareOrderByString at h
  obtain ⟨obs, hobs, h⟩ := bind_ok h
  simp only [pure, Except.pure, Except.ok.injEq] at h
  subst h
  have hobs' := mapExcept_ok_forall₂ hobs
  refine paramsOf_headJoin_nil _ ?_
  intro x hx
  cases hasCte with
  | true =>
    rw [if_pos rfl] at hx
    rcases List.mem_cons.mp hx with h1 | h2
    · subst h1; rfl
    · obtain ⟨ob, _, hob⟩ := forall₂_mem_right hobs' h2
      exact compileOrderBy_params hob
  | false =>
    rw [if_neg (by simp)] at hx
    obtain ⟨ob, _, hob⟩ := forall₂_mem_right hobs' hx
    exact compileOrderBy_params hob

theorem compileFilter_params {t : TableFrom} {cols : List ColumnDefinition} {f : Filter} {s : Sql}
    (h : compileFilter t cols f = .ok s) : paramsOf s = [f.value] := by
  unfold compileFilter at h
  split at h
  · exact absurd h (by simp)
  · split at h
    · simp only [Except.ok.injEq] at h
      subst h; rfl
    · simp only [Except.ok.injEq] at h
      subst h
      rw [paramsOf_append]
      split <;> rfl

theorem flatten_filter_params {t : TableFrom} {cols : List ColumnDefinition}
    {l : List Filter} {ys : List Sql}
    (h : List.Forall₂ (fun a b => compileFilter t cols a = .ok b) l ys) :
    (ys.map paramsOf).flatten = l.map (fun f => f.value) := by
  induction h with
  | nil => rfl
  | cons hr _ ih =>
    simp only [List.map_cons, List.flatten_cons]
    rw [compileFilter_params hr, ih]
    rfl

theorem prepareFilterString_params {t : TableFrom} {filters : List Filter}
    {cols : List ColumnDefinition} {s : Sql}
    (h : prepareFilterString t filters cols = .ok s) :
    paramsOf s = filters.map (fun f => f.value) := by
  unfold prepareFilterString at h
  obtain ⟨fs, hfs, h⟩ := bind_ok h
  simp only [pure, Except.pure, Except.ok.injEq] at h
  subst h
  rw [paramsOf_joinFrags]
  exact flatten_filter_params (mapExcept_ok_forall₂ hfs)

theorem filterClause_params {defs : Registry} {t : TableFrom}
    {filter : Option (List Filter)} {hasCte : Bool} {s : Sql}
    (h : filterClause defs t filter hasCte = .ok s) :
    paramsOf s = (filter.getD []).map (fun f => f.value) := by
  cases filter with
  | none =>
    simp only [filterClause, pure, Except.pure, Except.ok.injEq] at h
    subst h; rfl
  | some fs =>
    simp only [filterClause] at h
    rw [show (some fs).getD [] = fs from rfl]
    by_cases hlen : fs.length > 0
    case pos =>
      rw [if_pos hlen] at h
      obtain ⟨fsql, hf, h⟩ := bind_ok h
      simp only [pure, Except.pure, Except.ok.injEq] at h
      subst h
      rw [show (Frag.raw " " :: Frag.raw (if hasCte then " AND " else " WHERE ") ::
        Frag.raw " " :: fsql : Sql) =
        [Frag.raw " ", Frag.raw (if hasCte then " AND " else " WHERE "), Frag.raw " "] ++ fsql
        from rfl, paramsOf_append, prepareFilterString_params hf]
      rfl
    case neg =>
      rw [if_neg hlen] at h
      simp only [pure, Except.pure, Except.ok.injEq] at h
      subst h
      have hz : fs.length = 0 := by omega
      rw [List.length_eq_zero] at hz
      subst hz
      rfl

theorem groupClause_params {defs : Registry} {t : TableFrom}
    {groupBy : Option (List GroupByEntry)} {hasCte : Bool} {s : Sql}
    (h : groupClause defs t groupBy hasCte = .ok s) : paramsOf s = [] := by
  unfold groupClause at h
  split at h
  · obtain ⟨gs, hgs, h⟩ := bind_ok h
    simp only [pure, Except.pure, Except.ok.injEq] at h
    subst h
    refine paramsOf_headJoin_nil _ ?_
    intro x hx
    obtain ⟨g, _, hg⟩ := forall₂_mem_right (mapExcept_ok_forall₂ hgs) hx
    exact prepareGroupBy_params hg
  · simp only [pure, Except.pure, Except.ok.injEq] at h
    subst h; rfl

theorem paramsOf_selectClause_nil {fields : List Sql}
    (h : ∀ x ∈ fields, paramsOf x = []) : paramsOf (selectClause fields) = [] :=
  paramsOf_headJoin_nil _ h

/-! ### Inversion of `createDateRangeCte` -/

/-- Everything a successful bucket plan tells us: the single datetime
group-by entry, the temporal unit, the discovered lower/upper bound
filters, the resolved start column, and the exact shape of the CTE and
FROM-join fragments. -/
theorem minDateFilter_some {dtf : List Filter} {lo : Filter}
    (h : minDateFilter dtf = some lo) :
    dtf.length > 1 ∧ dtf.find? isLowerOp = some lo := by
  unfold minDateFilter at h
  split at h
  · exact ⟨by assumption, h⟩
  · exact absurd h (by simp)

theorem maxDateFilter_some {dtf : List Filter} {hi : Filter}
    (h : maxDateFilter dtf = some hi) :
    dtf.length > 1 ∧ dtf.find? isUpperOp = some hi := by
  unfold maxDateFilter at h
  split at h
  · exact ⟨by assumption, h⟩
  · exact absurd h (by simp)

theorem createDateRangeCte_some_inv {defs : Registry} {t : TableFrom}
    {filters : List Filter} {groupBy : List GroupByEntry} {c : DateRangeCte}
    (h : createDateRangeCte defs t filters groupBy = .ok (some c)) :
    ∃ gb unit lo hi,
      groupBy.filter (fun g => decide (g.type = GroupByType.datetime)) = [gb] ∧
      gb.temporalUnit = some unit ∧
      (dateTimeFiltersOf filters).length > 1 ∧
      (dateTimeFiltersOf filters).find? isLowerOp = some lo ∧
      (dateTimeFiltersOf filters).find? isUpperOp = some hi ∧
      lo.column = gb.column ∧ hi.column = gb.column ∧
      getColumnDefinition defs t lo.column = .ok c.column ∧
      c.cte = [.raw "\n      WITH date_series AS (\n        SELECT generate_series(",
               .param lo.value, .raw ", ", .param hi.value, .raw ", '1 ",
               .raw unit, .raw "') as date\n      )\n    "] ∧
      c.fromJoin = [Frag.raw " FROM date_series LEFT JOIN "] ++ getTableSql defs t ++
        [.raw " ON DATE_TRUNC('", .raw unit, .raw "', ", .raw c.column.internal,
         .raw ") = DATE_TRUNC('", .raw unit, .raw "', date_series.\"date\")"] := by
  unfold createDateRangeCte at h
  split at h
  · exact absurd h (by simp)
  · exact absurd h (by simp)
  next gb heq =>
    refine ⟨gb, ?_⟩
    split at h
    next unit lo hi hu hmin hmax =>
      split at h
      · exact absurd h (by simp)
      next hcols =>
        push_neg at hcols
        split at h
        · exact absurd h (by simp)
        next startCol hstart =>
          simp only [Except.ok.injEq, Option.some.injEq] at h
          subst h
          obtain ⟨hgt, hfind⟩ := minDateFilter_some hmin
          obtain ⟨_, hfind'⟩ := maxDateFilter_some hmax
          exact ⟨unit, lo, hi, heq, hu, hgt, hfind, hfind', hcols.1, hcols.2, hstart, rfl, rfl⟩
    next =>
      exact absurd h (by simp)

/-- A bucket plan never appears when a bound is missing: with the
datetime group-by list a singleton, absent min or max bound means the
planner returns `none` without error. -/
theorem createDateRangeCte_none_of_no_bounds {defs : Registry} {t : TableFrom}
    {filters : List Filter} {groupBy : List GroupByEntry} {gb : GroupByEntry}
    (hgb : groupBy.filter (fun g => decide (g.type = GroupByType.datetime)) = [gb])
    (hmiss : minDateFilter (dateTimeFiltersOf filters) = none ∨
             maxDateFilter (dateTimeFiltersOf filters) = none) :
    createDateRangeCte defs t filters groupBy = .ok none := by
  obtain ⟨gt, gcol, gtu⟩ := gb
  unfold createDateRangeCte
  rw [hgb]
  cases gtu with
  | none => rfl
  | some unit =>
    rcases hmiss with hlo | hhi
    · rw [hlo]
    · rw [hhi]
      cases hm : minDateFilter (dateTimeFiltersOf filters) <;> rfl

/-! ### Decomposition of `createQuery` -/

/-- Inversion of a successful compilation: names every intermediate
clause and gives the final fragment list. -/
theorem createQuery_ok_inv {defs : Registry} {q : Query} {s : Sql}
    (h : createQuery defs q = .ok s) :
    ∃ cte us gstr ostr fstr,
      createDateRangeCte defs q.fromTable (q.filter.getD []) (q.groupBy.getD []) = .ok cte ∧
      mapExcept (compileSelectField defs q.fromTable) q.select = .ok us ∧
      groupClause defs q.fromTable q.groupBy cte.isSome = .ok gstr ∧
      prepareOrderByString defs q.fromTable q.orderBy cte.isSome = .ok ostr ∧
      filterClause defs q.fromTable q.filter cte.isSome = .ok fstr ∧
      s = ctePart cte ++ selectClause (selectFieldsWithCte cte us) ++
        fromPart defs q.fromTable cte ++
        fstr ++ gstr ++ ostr ++ limitFrags q.limit ++ [Frag.raw ";"] := by
  unfold createQuery at h
  obtain ⟨cte, hc, h⟩ := bind_ok h
  obtain ⟨us, hs, h⟩ := bind_ok h
  obtain ⟨gstr, hg, h⟩ := bind_ok h
  obtain ⟨ostr, ho, h⟩ := bind_ok h
  obtain ⟨fstr, hf, h⟩ := bind_ok h
  simp only [pure, Except.pure, Except.ok.injEq] at h
  exact ⟨cte, us, gstr, ostr, fstr, hc, hs, hg, ho, hf, h.symm⟩

/-- The converse direction: assemble a successful compilation from its
clauses. -/
theorem createQuery_ok_of_parts {defs : Registry} {q : Query} {cte : Option DateRangeCte}
    {us : List Sql} {gstr ostr fstr : Sql}
    (hc : createDateRangeCte defs q.fromTable (q.filter.getD []) (q.groupBy.getD []) = .ok cte)
    (hs : mapExcept (compileSelectField defs q.fromTable) q.select = .ok us)
    (hg : groupClause defs q.fromTable q.groupBy cte.isSome = .ok gstr)
    (ho : prepareOrderByString defs q.fromTable q.orderBy cte.isSome = .ok ostr)
    (hf : filterClause defs q.fromTable q.filter cte.isSome = .ok fstr) :
    createQuery defs q = .ok (
      ctePart cte ++ selectClause (selectFieldsWithCte cte us) ++
      fromPart defs q.fromTable cte ++
      fstr ++ gstr ++ ostr ++ limitFrags q.limit ++ [Frag.raw ";"]) := by
  unfold createQuery
  simp only [hc, hs, hg, ho, hf, bind, Except.bind]
  rfl

/-- The bound-parameter list of any successful compilation: the CTE
bounds when a bucket plan exists, then every filter value in input
order, then the limit value. The CTE bounds are values of datetime
filters of the query. -/
theorem createQuery_params {defs : Registry} {q : Query} {s : Sql}
    (h : createQuery defs q = .ok s) :
    ∃ ctevals,
      paramsOf s = ctevals ++ (q.filter.getD []).map (fun f => f.value) ++
        paramsOf (limitFrags q.limit) ∧
      (ctevals = [] ∨ ∃ lo hi, ctevals = [lo.value, hi.value] ∧
        lo ∈ q.filter.getD [] ∧ hi ∈ q.filter.getD [] ∧
        lo.type = FilterType.datetime ∧ hi.type = FilterType.datetime) := by
  obtain ⟨cte, us, gstr, ostr, fstr, hc, hs, hg, ho, hf, hseq⟩ := createQuery_ok_inv h
  subst hseq
  have hus : ∀ x ∈ us, paramsOf x = [] := by
    intro x hx
    obtain ⟨f, _, hfok⟩ := forall₂_mem_right (mapExcept_ok_forall₂ hs) hx
    exact compileSelectField_params hfok
  have hsel : ∀ x ∈ selectFieldsWithCte cte us, paramsOf x = [] := by
    intro x hx
    cases cte with
    | none => exact hus x hx
    | some c =>
      rcases List.mem_cons.mp hx with h1 | h2
      · subst h1; rfl
      · exact hus x h2
  cases cte with
  | none =>
    refine ⟨[], ?_, Or.inl rfl⟩
    repeat rw [paramsOf_append]
    rw [groupClause_params hg, prepareOrderByString_params ho, filterClause_params hf,
      paramsOf_selectClause_nil hsel]
    simp [ctePart, fromPart, paramsOf, getTableSql]
  | some c =>
    obtain ⟨gb, unit, lo, hi, _, _, _, hflo, hfhi, _, _, _, hcte, hfrom⟩ :=
      createDateRangeCte_some_inv hc
    have hlomem : lo ∈ q.filter.getD [] ∧ lo.type = FilterType.datetime := by
      have hmem := List.mem_of_find?_eq_some hflo
      rw [dateTimeFiltersOf, List.mem_filter] at hmem
      exact ⟨hmem.1, by simpa using hmem.2⟩
    have hhimem : hi ∈ q.filter.getD [] ∧ hi.type = FilterType.datetime := by
      have hmem := List.mem_of_find?_eq_some hfhi
      rw [dateTimeFiltersOf, List.mem_filter] at hmem
      exact ⟨hmem.1, by simpa using hmem.2⟩
    refine ⟨[lo.value, hi.value], ?_,
      Or.inr ⟨lo, hi, rfl, hlomem.1, hhimem.1, hlomem.2, hhimem.2⟩⟩
    repeat rw [paramsOf_append]
    rw [groupClause_params hg, prepareOrderByString_params ho, filterClause_params hf,
      paramsOf_selectClause_nil hsel]
    rw [show ctePart (some c) = c.cte from rfl, hcte,
      show fromPart defs q.fromTable (some c) = c.fromJoin from rfl, hfrom]
    repeat rw [paramsOf_append]
    simp [paramsOf, getTableSql]

/-- Number of underlying entities a logical table denormalizes (spec:
one for traces and traces_scores, one for observations, two for the
join tables). -/
def tenantFilterCount : TableFrom → Nat
  | .traces => 1
  | .traces_scores => 1
  | .observations => 1
  | .traces_observations => 2
  | .traces_parent_observation_scores => 2

theorem getMandatoryFilter_values (t : TableFrom) (pid : String) :
    (getMandatoryFilter t pid).map (fun f => f.value) =
      List.replicate (tenantFilterCount t) (Value.str pid) := by
  cases t <;> rfl

theorem getMandatoryFilter_fields (t : TableFrom) (pid : String) :
    ∀ f ∈ getMandatoryFilter t pid,
      f.value = Value.str pid ∧ f.operator = "=" ∧ f.type = FilterType.string := by
  cases t <;>
    (intro f hf
     simp only [getMandatoryFilter, List.mem_cons, List.mem_singleton,
       List.not_mem_nil, or_false] at hf) <;>
    first
      | (subst hf; exact ⟨rfl, rfl, rfl⟩)
      | (rcases hf with rfl | rfl <;> exact ⟨rfl, rfl, rfl⟩)

/-- C1: `enrichAndCreateQuery` appends the table's mandatory tenant
filters to the user-supplied filter list without replacing any user
filter, with exactly one tenant filter per underlying entity (one for
traces / traces_scores, one for observations, two for the join tables),
and — provided no user filter value coincides with the tenant value —
the tenant value appears in the compiled parameter list exactly once
per underlying entity, bound through the same filter-compilation path
as user values. -/
theorem mandatory_tenant_filters (defs : Registry) (pid : String) (q : Query) (s : Sql)
    (hv : ∀ f ∈ q.filter.getD [], f.value ≠ Value.str pid)
    (hok : enrichAndCreateQuery defs pid q = .ok s) :
    enrichAndCreateQuery defs pid q =
      createQuery defs
        { q with filter := some (q.filter.getD [] ++ getMandatoryFilter q.fromTable pid) } ∧
    (∀ t, (getMandatoryFilter t pid).length = tenantFilterCount t) ∧
    (∀ t, ∀ f ∈ getMandatoryFilter t pid,
      f.value = Value.str pid ∧ f.operator = "=" ∧ f.type = FilterType.string) ∧
    (paramsOf s).count (Value.str pid) = tenantFilterCount q.fromTable := by
  refine ⟨rfl, fun t => by cases t <;> rfl, fun t => getMandatoryFilter_fields t pid, ?_⟩
  unfold enrichAndCreateQuery at hok
  obtain ⟨ctevals, hp, hcv⟩ := createQuery_params hok
  rw [show ({ q with filter := some (q.filter.getD [] ++ getMandatoryFilter q.fromTable pid) } :
    Query).filter.getD [] = q.filter.getD [] ++ getMandatoryFilter q.fromTable pid from rfl] at hp
  rw [show ({ q with filter := some (q.filter.getD [] ++ getMandatoryFilter q.fromTable pid) } :
    Query).limit = q.limit from rfl] at hp
  rw [hp, List.count_append, List.count_append]
  have huser : ((q.filter.getD []).map (fun f => f.value)).count (Value.str pid) = 0 := by
    rw [List.count_eq_zero]
    intro hmem
    obtain ⟨f, hf, hfv⟩ := List.mem_map.mp hmem
    exact hv f hf hfv
  have h2 : ((q.filter.getD [] ++ getMandatoryFilter q.fromTable pid).map
      (fun f => f.value)).count (Value.str pid) = tenantFilterCount q.fromTable := by
    rw [List.map_append, List.count_append, huser, getMandatoryFilter_values,
      List.count_replicate_self]
    omega
  have h1 : ctevals.count (Value.str pid) = 0 := by
    rcases hcv with rfl | ⟨lo, hi, rfl, hlomem, hhimem, hlot, hhit⟩
    · rfl
    · have hne : ∀ g : Filter, g ∈ q.filter.getD [] ++ getMandatoryFilter q.fromTable pid →
          g.type = FilterType.datetime → g.value ≠ Value.str pid := by
        intro g hg hgt
        rcases List.mem_append.mp hg with hg1 | hg2
        · exact hv g hg1
        · have := (getMandatoryFilter_fields q.fromTable pid g hg2).2.2
          rw [this] at hgt
          exact absurd hgt (by simp)
      rw [List.count_eq_zero]
      intro hmem
      rcases List.mem_cons.mp hmem with h1 | h2
      · exact hne lo hlomem hlot h1.symm
      · rw [List.mem_singleton] at h2
        exact hne hi hhimem hhit h2.symm
  have h3 : (paramsOf (limitFrags q.limit)).count (Value.str pid) = 0 := by
    cases hql : q.limit with
    | none => rfl
    | some n =>
      by_cases hz : n = 0
      · subst hz; rfl
      · simp [limitFrags, hz, paramsOf, List.count_cons]
  omega

/-- Concrete query for the tenant-filter instance: one user filter on
the traces table. -/
def c1wQuery : Query :=
  { fromTable := .traces, select := [{ column := "id", agg := none }],
    filter := some [{ type := .string, column := "id", operator := "=", value := .str "abc" }],
    groupBy := none, orderBy := none, limit := none }

/-- The compiled fragments of `c1wQuery` under the fixture registry. -/
def c1wStmt : Sql :=
  [.raw " SELECT ", .raw "t.\"id\"", .raw " as \"", .raw "id", .raw "\"",
   .raw " FROM ", .raw "traces t",
   .raw " ", .raw " WHERE ", .raw " ",
   .raw "t.\"id\"", .raw " ", .raw "=", .raw " ", .param (.str "abc"), .raw " ",
   .raw " AND ",
   .raw "t.\"project_id\"", .raw " ", .raw "=", .raw " ", .param (.str "p1"), .raw " ",
   .raw ";"]

/-- C1 at a concrete input. -/
theorem mandatory_tenant_filters_witness :
    enrichAndCreateQuery sampleDefs "p1" c1wQuery =
      createQuery sampleDefs
        { c1wQuery with
          filter := some (c1wQuery.filter.getD [] ++ getMandatoryFilter c1wQuery.fromTable "p1") } ∧
    (∀ t, (getMandatoryFilter t "p1").length = tenantFilterCount t) ∧
    (∀ t, ∀ f ∈ getMandatoryFilter t "p1",
      f.value = Value.str "p1" ∧ f.operator = "=" ∧ f.type = FilterType.string) ∧
    (paramsOf c1wStmt).count (Value.str "p1") = tenantFilterCount c1wQuery.fromTable :=
  mandatory_tenant_filters sampleDefs "p1" c1wQuery c1wStmt (by decide) (by rfl)

/-- C10: a query whose limit equals 0 compiles exactly like a query
with no limit at all — the truthiness test `query.limit ? ... : empty`
emits no LIMIT fragment and binds no parameter for a zero limit. -/
theorem limit_zero_eq_absent (defs : Registry) (q : Query) :
    limitFrags (some 0) = ([] : Sql) ∧
    createQuery defs { q with limit := some 0 } = createQuery defs { q with limit := none } :=
  ⟨rfl, rfl⟩

/-- C8: a selected column with aggregation `a` is aliased
`a.toLowerCase() + capitalizeFirstLetter(columnName)` (e.g. SUM over
amount gives sumAmount); without aggregation the alias is the column
name itself. -/
theorem select_alias_rule (defs : Registry) (t : TableFrom) :
    (∀ (f : SelectField) (a : String) (cd : ColumnDefinition),
      f.agg = some a → getColumnDefinition defs t f.column = .ok cd →
      (compileSelectField defs t f).map textOf =
        .ok (a ++ "(" ++ cd.internal ++ ") as \"" ++
          (toLowerString a ++ capitalizeFirstLetter cd.name) ++ "\"")) ∧
    (∀ (f : SelectField) (cd : ColumnDefinition),
      f.agg = none → getColumnDefinition defs t f.column = .ok cd →
      (compileSelectField defs t f).map textOf =
        .ok (cd.internal ++ " as \"" ++ cd.name ++ "\"")) ∧
    toLowerString "SUM" ++ capitalizeFirstLetter "amount" = "sumAmount" := by
  refine ⟨?_, ?_, by decide⟩
  · intro f a cd ha hcd
    unfold compileSelectField
    rw [hcd]
    show Except.map textOf ((match f.agg with
      | some agg => pure [Frag.raw agg, Frag.raw "(", Frag.raw cd.internal, Frag.raw ") as \"",
          Frag.raw (toLowerString agg), Frag.raw (capitalizeFirstLetter cd.name), Frag.raw "\""]
      | none => pure [Frag.raw cd.internal, Frag.raw " as \"", Frag.raw cd.name, Frag.raw "\""] :
        Except QueryError Sql)) = _
    rw [ha]
    simp [textOf, fragText, Except.map, pure, Except.pure, String.append_assoc]
  · intro f cd ha hcd
    unfold compileSelectField
    rw [hcd]
    show Except.map textOf ((match f.agg with
      | some agg => pure [Frag.raw agg, Frag.raw "(", Frag.raw cd.internal, Frag.raw ") as \"",
          Frag.raw (toLowerString agg), Frag.raw (capitalizeFirstLetter cd.name), Frag.raw "\""]
      | none => pure [Frag.raw cd.internal, Frag.raw " as \"", Frag.raw cd.name, Frag.raw "\""] :
        Except QueryError Sql)) = _
    rw [ha]
    simp [textOf, fragText, Except.map, pure, Except.pure, String.append_assoc]

/-- C8 at a concrete input: SUM over amount aliases to sumAmount. -/
theorem select_alias_rule_witness :
    (compileSelectField sampleDefs TableFrom.traces
        { column := "amount", agg := some "SUM" }).map textOf =
      .ok ("SUM" ++ "(" ++ "t.\"amount\"" ++ ") as \"" ++
        (toLowerString "SUM" ++ capitalizeFirstLetter "amount") ++ "\"") ∧
    (compileSelectField sampleDefs TableFrom.traces
        { column := "amount", agg := none }).map textOf =
      .ok ("t.\"amount\"" ++ " as \"" ++ "amount" ++ "\"") ∧
    toLowerString "SUM" ++ capitalizeFirstLetter "amount" = "sumAmount" :=
  ⟨(select_alias_rule sampleDefs TableFrom.traces).1
      { column := "amount", agg := some "SUM" } "SUM"
      { name := "amount", internal := "t.\"amount\"" } rfl (by rfl),
   (select_alias_rule sampleDefs TableFrom.traces).2.1
      { column := "amount", agg := none }
      { name := "amount", internal := "t.\"amount\"" } rfl (by rfl),
   (select_alias_rule sampleDefs TableFrom.traces).2.2⟩

/-- C9: the result normalizer maps each cell by runtime type — bigint
and Decimal to the portable number, native numbers, text, timestamps
and null pass through — and fails on any other runtime type; decimal
10.5 yields 10.5, integer 42 yields 42, null yields null. -/
theorem output_normalizer_cases :
    (∀ i : Int, parseCell (Cell.bigint i) = .ok (OutCell.number (i : Rat))) ∧
    (∀ x : Rat, parseCell (Cell.number x) = .ok (OutCell.number x)) ∧
    (∀ x : Rat, parseCell (Cell.decimal x) = .ok (OutCell.number x)) ∧
    (∀ s : String, parseCell (Cell.str s) = .ok (OutCell.str s)) ∧
    (∀ d : String, parseCell (Cell.date d) = .ok (OutCell.date d)) ∧
    parseCell Cell.null = .ok OutCell.null ∧
    (∀ tag : String, parseCell (Cell.other tag) = .error ("Unknown type " ++ tag)) ∧
    (∀ (k tag : String) (r : InternalRow) (rows : List InternalRow),
      outputParser (((k, Cell.other tag) :: r) :: rows) = .error ("Unknown type " ++ tag)) ∧
    outputParser [[("a", Cell.decimal (10.5 : Rat)), ("b", Cell.bigint 42), ("c", Cell.null)]] =
      .ok [[("a", OutCell.number (10.5 : Rat)), ("b", OutCell.number ((42 : Int) : Rat)),
            ("c", OutCell.null)]] :=
  ⟨fun _ => rfl, fun _ => rfl, fun _ => rfl, fun _ => rfl, fun _ => rfl, rfl,
   fun _ => rfl, fun _ _ _ _ => rfl, rfl⟩

/-- A bucketed query on traces: one datetime group-by (day) with a
matched >= / < datetime filter pair on the same column. -/
def c3Query : Query :=
  { fromTable := .traces, select := [{ column := "id", agg := none }],
    filter := some [
      { type := .datetime, column := "timestamp", operator := ">=", value := .date "2024-01-01" },
      { type := .datetime, column := "timestamp", operator := "<", value := .date "2024-02-01" }],
    groupBy := some [{ type := .datetime, column := "timestamp", temporalUnit := some "day" }],
    orderBy := none, limit := none }

/-- C3 fails on the code: for a query with a bucket plan, the lower
range bound is bound as a parameter twice — once in the
generate_series CTE and once again in the AND-appended filter
predicates — not exactly once. -/
theorem cte_bounds_counterexample :
    (createDateRangeCte sampleDefs c3Query.fromTable (c3Query.filter.getD [])
      (c3Query.groupBy.getD [])).map Option.isSome = .ok true ∧
    (createQuery sampleDefs c3Query).map
      (fun s => (paramsOf s).count (Value.date "2024-01-01")) = .ok 2 ∧
    (createQuery sampleDefs c3Query).map
      (fun s => (paramsOf s).count (Value.date "2024-02-01")) = .ok 2 :=
  ⟨rfl, rfl, rfl⟩

/-- C3 (amended): when a bucket plan exists, the two datetime range
filters define the CTE's generate_series bounds AND are re-emitted as
AND-appended filter predicates — each bound value is bound twice, once
in the CTE and once in the predicate list. -/
theorem cte_bounds_bound_twice (defs : Registry) (q : Query) (s : Sql) (c : DateRangeCte)
    (lo hi : Filter)
    (hq : createQuery defs q = .ok s)
    (hc : createDateRangeCte defs q.fromTable (q.filter.getD []) (q.groupBy.getD []) =
      .ok (some c))
    (hlo : (dateTimeFiltersOf (q.filter.getD [])).find? isLowerOp = some lo)
    (hhi : (dateTimeFiltersOf (q.filter.getD [])).find? isUpperOp = some hi) :
    lo ∈ q.filter.getD [] ∧ hi ∈ q.filter.getD [] ∧
    paramsOf s = [lo.value, hi.value] ++ (q.filter.getD []).map (fun f => f.value) ++
      paramsOf (limitFrags q.limit) := by
  obtain ⟨cte0, us, gstr, ostr, fstr, hc0, hs, hg, ho, hf, hseq⟩ := createQuery_ok_inv hq
  rw [hc0] at hc
  simp only [Except.ok.injEq] at hc
  subst hc
  have hlomem : lo ∈ q.filter.getD [] := by
    have hmem := List.mem_of_find?_eq_some hlo
    rw [dateTimeFiltersOf, List.mem_filter] at hmem
    exact hmem.1
  have hhimem : hi ∈ q.filter.getD [] := by
    have hmem := List.mem_of_find?_eq_some hhi
    rw [dateTimeFiltersOf, List.mem_filter] at hmem
    exact hmem.1
  obtain ⟨gb, unit, lo', hi', hgb, hu, hlen, hflo, hfhi, _, _, hstart, hcte, hfrom⟩ :=
    createDateRangeCte_some_inv hc0
  have e1 : lo' = lo := Option.some.inj (hflo.symm.trans hlo)
  have e2 : hi' = hi := Option.some.inj (hfhi.symm.trans hhi)
  rw [e1, e2] at hcte
  refine ⟨hlomem, hhimem, ?_⟩
  subst hseq
  have hus : ∀ x ∈ us, paramsOf x = [] := by
    intro x hx
    obtain ⟨f, _, hfok⟩ := forall₂_mem_right (mapExcept_ok_forall₂ hs) hx
    exact compileSelectField_params hfok
  have hsel : ∀ x ∈ selectFieldsWithCte (some c) us, paramsOf x = [] := by
    intro x hx
    rcases List.mem_cons.mp hx with h1 | h2
    · subst h1; rfl
    · exact hus x h2
  repeat rw [paramsOf_append]
  rw [groupClause_params hg, prepareOrderByString_params ho, filterClause_params hf,
    paramsOf_selectClause_nil hsel]
  rw [show ctePart (some c) = c.cte from rfl, hcte,
    show fromPart defs q.fromTable (some c) = c.fromJoin from rfl, hfrom]
  repeat rw [paramsOf_append]
  simp [paramsOf, getTableSql]

/-- The lower-bound filter of `c3Query`. -/
def c3Lo : Filter :=
  { type := .datetime, column := "timestamp", operator := ">=", value := .date "2024-01-01" }

/-- The upper-bound filter of `c3Query`. -/
def c3Hi : Filter :=
  { type := .datetime, column := "timestamp", operator := "<", value := .date "2024-02-01" }

/-- The bucket plan produced for `c3Query` under the fixture registry. -/
def c3Cte : DateRangeCte :=
  { cte := [.raw "\n      WITH date_series AS (\n        SELECT generate_series(",
            .param (.date "2024-01-01"), .raw ", ", .param (.date "2024-02-01"),
            .raw ", '1 ", .raw "day", .raw "') as date\n      )\n    "],
    fromJoin := [.raw " FROM date_series LEFT JOIN ", .raw "traces t",
                 .raw " ON DATE_TRUNC('", .raw "day", .raw "', ", .raw "t.\"timestamp\"",
                 .raw ") = DATE_TRUNC('", .raw "day", .raw "', date_series.\"date\")"],
    column := { name := "timestamp", internal := "t.\"timestamp\"" } }

/-- The compiled fragments of `c3Query` under the fixture registry. -/
def c3Stmt : Sql :=
  c3Cte.cte ++
  [.raw " SELECT ", .raw "date_series.\"date\" as \"", .raw "timestamp", .raw "\"",
   .raw ", ", .raw "t.\"id\"", .raw " as \"", .raw "id", .raw "\""] ++
  c3Cte.fromJoin ++
  [.raw " ", .raw " AND ", .raw " ",
   .raw "t.\"timestamp\"", .raw " ", .raw ">=", .raw " ", .param (.date "2024-01-01"),
   .raw " AND ",
   .raw "t.\"timestamp\"", .raw " ", .raw "<", .raw " ", .param (.date "2024-02-01"),
   .raw " GROUP BY ", .raw "date_series.\"date\"",
   .raw " ORDER BY ", .raw "date_series.\"date\" ASC", .raw ";"]

/-- C3 (amended) at the concrete input. -/
theorem cte_bounds_bound_twice_witness :
    c3Lo ∈ c3Query.filter.getD [] ∧ c3Hi ∈ c3Query.filter.getD [] ∧
    paramsOf c3Stmt = [c3Lo.value, c3Hi.value] ++
      (c3Query.filter.getD []).map (fun f => f.value) ++ paramsOf (limitFrags c3Query.limit) :=
  cte_bounds_bound_twice sampleDefs c3Query c3Stmt c3Cte c3Lo c3Hi
    (by rfl) (by rfl) (by rfl) (by rfl)

theorem bind_error {α β : Type} {x : Except QueryError α} {f : α → Except QueryError β}
    {e : QueryError} (h : x = .error e) : (x >>= f) = .error e := by
  rw [h]; rfl

/-- C6: compilation fails fatally (an error, no partial statement) with
MultipleDatetimeGroupBy when the group-by list holds more than one
datetime entry, and with MismatchedRangeColumn when both range bounds
are found but either one's column differs from the datetime group-by
column. -/
theorem semantics_errors_fatal (defs : Registry) (q : Query) :
    (((q.groupBy.getD []).filter (fun g => decide (g.type = GroupByType.datetime))).length > 1 →
      createQuery defs q = .error QueryError.multipleDatetimeGroupBy) ∧
    (∀ (gt : GroupByType) (gcol : String) (unit : String) (lo hi : Filter),
      (q.groupBy.getD []).filter (fun g => decide (g.type = GroupByType.datetime)) =
        [{ type := gt, column := gcol, temporalUnit := some unit }] →
      minDateFilter (dateTimeFiltersOf (q.filter.getD [])) = some lo →
      maxDateFilter (dateTimeFiltersOf (q.filter.getD [])) = some hi →
      lo.column ≠ gcol ∨ hi.column ≠ gcol →
      createQuery defs q = .error QueryError.mismatchedRangeColumn) := by
  constructor
  · intro hlen
    have hcte : createDateRangeCte defs q.fromTable (q.filter.getD []) (q.groupBy.getD []) =
        .error QueryError.multipleDatetimeGroupBy := by
      unfold createDateRangeCte
      cases hl : (q.groupBy.getD []).filter (fun g => decide (g.type = GroupByType.datetime)) with
      | nil => rw [hl] at hlen; exact absurd hlen (by simp)
      | cons a tl =>
        cases tl with
        | nil => rw [hl] at hlen; exact absurd hlen (by simp)
        | cons b tl2 => rfl
    unfold createQuery
    exact bind_error hcte
  · intro gt gcol unit lo hi hgb hlo hhi hne
    have hcte : createDateRangeCte defs q.fromTable (q.filter.getD []) (q.groupBy.getD []) =
        .error QueryError.mismatchedRangeColumn := by
      unfold createDateRangeCte
      rw [hgb, hlo, hhi]
      exact if_pos hne
    unfold createQuery
    exact bind_error hcte

/-- Query with two datetime group-by dimensions. -/
def c6aQuery : Query :=
  { fromTable := .traces, select := [{ column := "id", agg := none }],
    filter := none,
    groupBy := some [{ type := .datetime, column := "timestamp", temporalUnit := some "day" },
                     { type := .datetime, column := "timestamp", temporalUnit := some "month" }],
    orderBy := none, limit := none }

/-- Query whose range-filter column differs from the datetime group-by
column. -/
def c6bQuery : Query :=
  { fromTable := .traces, select := [{ column := "id", agg := none }],
    filter := some [
      { type := .datetime, column := "id", operator := ">=", value := .date "2024-01-01" },
      { type := .datetime, column := "id", operator := "<", value := .date "2024-02-01" }],
    groupBy := some [{ type := .datetime, column := "timestamp", temporalUnit := some "day" }],
    orderBy := none, limit := none }

/-- C6 at concrete inputs. -/
theorem semantics_errors_fatal_witness :
    createQuery sampleDefs c6aQuery = .error QueryError.multipleDatetimeGroupBy ∧
    createQuery sampleDefs c6bQuery = .error QueryError.mismatchedRangeColumn :=
  ⟨(semantics_errors_fatal sampleDefs c6aQuery).1 (by decide),
   (semantics_errors_fatal sampleDefs c6bQuery).2 GroupByType.datetime "timestamp" "day"
     { type := .datetime, column := "id", operator := ">=", value := .date "2024-01-01" }
     { type := .datetime, column := "id", operator := "<", value := .date "2024-02-01" }
     (by rfl) (by rfl) (by rfl) (Or.inl (by decide))⟩

/-- A query with exactly one datetime filter (no matched pair) next to
a datetime group-by: no bucket plan is produced. -/
def c7Query : Query :=
  { fromTable := .traces, select := [{ column := "id", agg := none }],
    filter := some [
      { type := .datetime, column := "timestamp", operator := ">=", value := .date "2024-01-01" }],
    groupBy := some [{ type := .datetime, column := "timestamp", temporalUnit := some "day" }],
    orderBy := none, limit := none }

/-- C7: when no bucket plan exists (fewer than two datetime filters),
the planner returns none and compilation proceeds without error — but,
contrary to ordinary grouping, `prepareGroupBy` still emits the
synthetic series column `date_series."date"` for the datetime group-by
entry, so the statement references a date_series source that is neither
declared by a CTE nor joined: the emitted SQL is invalid for this
input class. -/
theorem datetime_groupby_without_plan_emits_series :
    createDateRangeCte sampleDefs c7Query.fromTable (c7Query.filter.getD [])
      (c7Query.groupBy.getD []) = .ok none ∧
    prepareGroupBy sampleDefs TableFrom.traces
      { type := .datetime, column := "timestamp", temporalUnit := some "day" } =
      .ok [Frag.raw "date_series.\"date\""] ∧
    (createQuery sampleDefs c7Query).map textOf =
      .ok (" SELECT t.\"id\" as \"id\" FROM traces t  WHERE  t.\"timestamp\" >= ?" ++
        " GROUP BY date_series.\"date\";") :=
  ⟨rfl, rfl, rfl⟩

theorem getMandatoryFilter_length (t : TableFrom) (pid : String) :
    (getMandatoryFilter t pid).length = tenantFilterCount t := by
  cases t <;> rfl

theorem getMandatoryFilter_columns (t : TableFrom) (pid : String) :
    ∀ f ∈ getMandatoryFilter t pid,
      f.column = "tracesProjectId" ∨ f.column = "observationsProjectId" := by
  cases t <;>
    (intro f hf
     simp only [getMandatoryFilter, List.mem_cons, List.mem_singleton,
       List.not_mem_nil, or_false] at hf) <;>
    first
      | (subst hf; first | exact Or.inl rfl | exact Or.inr rfl)
      | (rcases hf with rfl | rfl
         · exact Or.inl rfl
         · exact Or.inr rfl)

/-- `compileFilter` when the column lookup succeeds. -/
theorem compileFilter_found {t : TableFrom} {cols : List ColumnDefinition}
    {f : Filter} {m : ColumnDefinition}
    (hfm : cols.find? (fun c => decide (c.name = f.column)) = some m) :
    compileFilter t cols f =
      if f.type = FilterType.datetime then
        .ok [.raw m.internal, .raw " ", .raw f.operator, .raw " ", .param f.value]
      else
        .ok ([.raw m.internal, .raw " ", .raw f.operator, .raw " ", .param f.value, .raw " "] ++
          (if m.name = "type" ∧ t = TableFrom.observations then
            [Frag.raw "::\"ObservationType\""] else [])) := by
  unfold compileFilter
  rw [hfm]

/-- `prepareFilterString` on a list of uniform string-typed equality
filters that all bind the same value (the shape of the mandatory tenant
filters). -/
theorem prepareFilterString_mandatory {t : TableFrom} {cols : List ColumnDefinition}
    {fs : List Filter} {ms : List ColumnDefinition} {v : Value}
    (hm : List.Forall₂
      (fun f m => cols.find? (fun c => decide (c.name = f.column)) = some m) fs ms)
    (hprops : ∀ f ∈ fs, f.type = FilterType.string ∧ f.operator = "=" ∧
      f.column ≠ "type" ∧ f.value = v) :
    prepareFilterString t fs cols =
      .ok (joinFrags " AND " (ms.map (fun m =>
        [Frag.raw m.internal, Frag.raw " ", Frag.raw "=", Frag.raw " ",
         Frag.param v, Frag.raw " "]))) := by
  unfold prepareFilterString
  have hmap : mapExcept (compileFilter t cols) fs =
      .ok (ms.map (fun m =>
        [Frag.raw m.internal, Frag.raw " ", Frag.raw "=", Frag.raw " ",
         Frag.param v, Frag.raw " "])) := by
    apply mapExcept_of_forall₂
    revert hprops
    induction hm with
    | nil => intro _; exact .nil
    | cons hfm htl ih =>
      rename_i f m fs' ms'
      intro hprops
      rw [List.map_cons]
      refine .cons ?_ (ih ?_)
      · obtain ⟨ht, hop, hcol, hv⟩ := hprops f (List.mem_cons_self ..)
        have hname : m.name = f.column := by
          have := List.find?_some hfm
          simpa using this
        rw [compileFilter_found hfm, if_neg (by simp [ht]),
          if_neg (fun hand => hcol (hname.symm.trans hand.1)),
          List.append_nil, hop, hv]
      · intro g hg
        exact hprops g (List.mem_cons_of_mem _ hg)
  rw [hmap]
  rfl

theorem flatten_singleton_map (v : Value) (ms : List ColumnDefinition) :
    (ms.map (fun _ => [v])).flatten = List.replicate ms.length v := by
  induction ms with
  | nil => rfl
  | cons m ms ih => simp [ih, List.replicate]

theorem flatten_replicate_singleton (n : Nat) (v : Value) :
    (List.replicate n [v]).flatten = List.replicate n v := by
  induction n with
  | zero => rfl
  | succ n ih => simp [List.replicate_succ, ih]

/-- A query selecting exactly one column, no aggregation, no filters,
no group-by, no order-by, no limit. -/
def minimalQuery (T : TableFrom) (col : String) : Query :=
  { fromTable := T, select := [{ column := col, agg := none }],
    filter := none, groupBy := none, orderBy := none, limit := none }

/-- C4: for every known table `T` and tenant `P`, a query selecting one
column with no aggregation, no user filters, no group-by, no order-by
and no limit compiles to the single statement
`SELECT <col> FROM <physical(T)> WHERE <tenantPredicate(P)>;`, where the
tenant predicate is the AND-join of one equality per underlying entity,
and the parameter list holds `P` as the only bound value, once per
entity. -/
theorem minimal_query_shape (defs : Registry) (T : TableFrom) (pid col : String)
    (cd : ColumnDefinition) (ms : List ColumnDefinition)
    (hc : getColumnDefinition defs T col = .ok cd)
    (hm : List.Forall₂ (fun f m =>
      (defs T).columns.find? (fun c => decide (c.name = f.column)) = some m)
      (getMandatoryFilter T pid) ms) :
    (enrichAndCreateQuery defs pid (minimalQuery T col)).map textOf =
      .ok (" SELECT " ++ cd.internal ++ " as \"" ++ cd.name ++ "\"" ++
        " FROM " ++ (defs T).table ++ " " ++ " WHERE " ++ " " ++
        sepJoin " AND " (ms.map (fun m => m.internal ++ " = ? ")) ++
        ";") ∧
    (enrichAndCreateQuery defs pid (minimalQuery T col)).map paramsOf =
      .ok (List.replicate (tenantFilterCount T) (Value.str pid)) := by
  have hcs : compileSelectField defs T { column := col, agg := none } =
      .ok [.raw cd.internal, .raw " as \"", .raw cd.name, .raw "\""] := by
    unfold compileSelectField
    rw [hc]
    rfl
  have hus : mapExcept (compileSelectField defs T) [{ column := col, agg := none }] =
      .ok [[.raw cd.internal, .raw " as \"", .raw cd.name, .raw "\""]] := by
    unfold mapExcept
    rw [hcs]
    rfl
  have hcte : createDateRangeCte defs T ([] ++ getMandatoryFilter T pid) [] = .ok none := rfl
  have hgc : groupClause defs T none false = .ok [] := rfl
  have hob : prepareOrderByString defs T none false = .ok [] := rfl
  have hlen : 0 < ([] ++ getMandatoryFilter T pid).length := by
    rw [List.nil_append, getMandatoryFilter_length]
    cases T <;> decide
  have hprops : ∀ f ∈ getMandatoryFilter T pid, f.type = FilterType.string ∧
      f.operator = "=" ∧ f.column ≠ "type" ∧ f.value = Value.str pid := by
    intro f hf
    obtain ⟨hv, hop, ht⟩ := getMandatoryFilter_fields T pid f hf
    refine ⟨ht, hop, ?_, hv⟩
    rcases getMandatoryFilter_columns T pid f hf with h | h <;> rw [h] <;> decide
  have hpfs := prepareFilterString_mandatory (t := T) hm hprops
  have hfc : filterClause defs T (some (getMandatoryFilter T pid)) false =
      .ok ([Frag.raw " ", Frag.raw " WHERE ", Frag.raw " "] ++
        joinFrags " AND " (ms.map (fun m =>
          [Frag.raw m.internal, Frag.raw " ", Frag.raw "=", Frag.raw " ",
           Frag.param (Value.str pid), Frag.raw " "]))) := by
    simp only [filterClause]
    rw [if_pos (show (getMandatoryFilter T pid).length > 0 by
      rw [getMandatoryFilter_length]; cases T <;> decide)]
    rw [hpfs]
    rfl
  have hok := @createQuery_ok_of_parts defs
    { fromTable := T, select := [{ column := col, agg := none }],
      filter := some ([] ++ getMandatoryFilter T pid),
      groupBy := none, orderBy := none, limit := none }
    none _ _ _ _ hcte hus hgc hob hfc
  have henr : enrichAndCreateQuery defs pid (minimalQuery T col) =
      .ok (ctePart none ++
        selectClause (selectFieldsWithCte none
          [[.raw cd.internal, .raw " as \"", .raw cd.name, .raw "\""]]) ++
        fromPart defs T none ++
        ([Frag.raw " ", Frag.raw " WHERE ", Frag.raw " "] ++
          joinFrags " AND " (ms.map (fun m =>
            [Frag.raw m.internal, Frag.raw " ", Frag.raw "=", Frag.raw " ",
             Frag.param (Value.str pid), Frag.raw " "]))) ++
        [] ++ [] ++ limitFrags none ++ [Frag.raw ";"]) := hok
  constructor
  · rw [henr]
    show Except.ok _ = _
    rw [Except.ok.injEq]
    simp only [ctePart, selectFieldsWithCte, fromPart, selectClause, joinFrags,
      limitFrags, getTableSql, List.length_cons, List.length_nil]
    rw [if_pos (by omega)]
    simp only [textOf_append, textOf_joinFrags, List.map_map]
    have hmapfun : List.map (textOf ∘ fun m =>
        [Frag.raw m.internal, Frag.raw " ", Frag.raw "=", Frag.raw " ",
         Frag.param (Value.str pid), Frag.raw " "]) ms =
        List.map (fun m => m.internal ++ " = ? ") ms := by
      simp [Function.comp, textOf, fragText]
    rw [hmapfun]
    have hb : ∀ r : String, "\"" ++ (" FROM " ++ r) = "\" FROM " ++ r := fun r => by
      rw [← String.append_assoc]
      exact congrArg (fun s => s ++ r) (by decide)
    simp [textOf, fragText, String.append_assoc]
    rw [hb]
  · rw [henr]
    show Except.ok _ = _
    rw [Except.ok.injEq]
    simp only [ctePart, selectFieldsWithCte, fromPart, selectClause, joinFrags,
      limitFrags, getTableSql, List.length_cons, List.length_nil]
    rw [if_pos (by omega)]
    simp only [paramsOf_append, paramsOf_joinFrags, List.map_map]
    have hlen2 : ms.length = tenantFilterCount T := by
      rw [← hm.length_eq, getMandatoryFilter_length]
    simp [paramsOf, Function.comp_def, flatten_replicate_singleton, hlen2]

/-- C4 at a concrete input: the join table with two tenant entities. -/
theorem minimal_query_shape_witness :
    (enrichAndCreateQuery sampleDefs "p1"
        (minimalQuery TableFrom.traces_observations "duration")).map textOf =
      .ok (" SELECT " ++ "o.\"duration\"" ++ " as \"" ++ "duration" ++ "\"" ++
        " FROM " ++ (sampleDefs TableFrom.traces_observations).table ++ " " ++ " WHERE " ++ " " ++
        sepJoin " AND "
          (([{ name := "tracesProjectId", internal := "t.\"project_id\"" },
             { name := "observationsProjectId", internal := "o.\"project_id\"" }] :
             List ColumnDefinition).map
            (fun m => m.internal ++ " = ? ")) ++ ";") ∧
    (enrichAndCreateQuery sampleDefs "p1"
        (minimalQuery TableFrom.traces_observations "duration")).map paramsOf =
      .ok (List.replicate (tenantFilterCount TableFrom.traces_observations) (Value.str "p1")) :=
  minimal_query_shape sampleDefs TableFrom.traces_observations "p1" "duration"
    { name := "duration", internal := "o.\"duration\"" }
    ([{ name := "tracesProjectId", internal := "t.\"project_id\"" },
      { name := "observationsProjectId", internal := "o.\"project_id\"" }] :
      List ColumnDefinition)
    (by rfl)
    (by refine List.Forall₂.cons ?_ (List.Forall₂.cons ?_ List.Forall₂.nil) <;> rfl)

theorem forall₂_mem_left {R : α → β → Prop} {l₁ : List α} {l₂ : List β}
    (h : List.Forall₂ R l₁ l₂) {a : α} (ha : a ∈ l₁) : ∃ b ∈ l₂, R a b := by
  induction h with
  | nil => exact absurd ha (List.not_mem_nil a)
  | cons hr _ ih =>
    rcases List.mem_cons.mp ha with h1 | h2
    · subst h1; exact ⟨_, List.mem_cons_self .., hr⟩
    · obtain ⟨b, hb, hbr⟩ := ih h2
      exact ⟨b, List.mem_cons_of_mem _ hb, hbr⟩

theorem bind_ok_eq {α β : Type} {x : Except QueryError α} {a : α}
    (h : x = .ok a) (f : α → Except QueryError β) : (x >>= f) = f a := by
  rw [h]; rfl

theorem selectClause_cons (x : Sql) (xs : List Sql) :
    selectClause (x :: xs) = Frag.raw " SELECT " :: joinFrags ", " (x :: xs) := by
  unfold selectClause
  rw [if_pos (by simp)]

/-- C5: when a bucket plan exists, the compiled statement (a) prepends
the series column `date_series."date" as "<col>"` ahead of all other
SELECT columns, (b) replaces the plain-table FROM with the date_series
LEFT JOIN on equality of DATE_TRUNC'd values, (c) emits
`date_series."date"` in GROUP BY for the datetime dimension instead of
the raw table column, and (d) places `date_series."date" ASC` before
every explicit ORDER BY term. -/
theorem bucket_plan_statement_shape (defs : Registry) (q : Query) (c : DateRangeCte)
    (us gs obs : List Sql) (fstr : Sql)
    (hc : createDateRangeCte defs q.fromTable (q.filter.getD []) (q.groupBy.getD []) =
      .ok (some c))
    (hs : mapExcept (compileSelectField defs q.fromTable) q.select = .ok us)
    (hg : mapExcept (prepareGroupBy defs q.fromTable) (q.groupBy.getD []) = .ok gs)
    (ho : mapExcept (compileOrderBy defs q.fromTable) (q.orderBy.getD []) = .ok obs)
    (hf : filterClause defs q.fromTable q.filter true = .ok fstr) :
    createQuery defs q = .ok (
      c.cte ++
      (Frag.raw " SELECT " :: joinFrags ", " (seriesSelect c.column.name :: us)) ++
      c.fromJoin ++
      fstr ++
      (Frag.raw " GROUP BY " :: joinFrags ", " gs) ++
      (Frag.raw " ORDER BY " :: joinFrags ", " ([Frag.raw "date_series.\"date\" ASC"] :: obs)) ++
      limitFrags q.limit ++ [Frag.raw ";"]) ∧
    (∀ g ∈ q.groupBy.getD [], g.type = GroupByType.datetime →
      prepareGroupBy defs q.fromTable g = .ok [Frag.raw "date_series.\"date\""]) ∧
    (∃ unit, textOf c.fromJoin =
      " FROM date_series LEFT JOIN " ++ (defs q.fromTable).table ++
      " ON DATE_TRUNC('" ++ unit ++ "', " ++ c.column.internal ++ ") = DATE_TRUNC('" ++ unit ++
      "', date_series.\"date\")") := by
  obtain ⟨gb, unit, lo, hi, hgb, hu, hlen, hflo, hfhi, hlc, hhc, hstart, hcte, hfrom⟩ :=
    createDateRangeCte_some_inv hc
  have hgmem : gb ∈ q.groupBy.getD [] := by
    have h1 : gb ∈ (q.groupBy.getD []).filter
        (fun g => decide (g.type = GroupByType.datetime)) := by
      rw [hgb]; exact List.mem_singleton.mpr rfl
    exact List.mem_of_mem_filter h1
  have hglen : gs.length > 0 := by
    have h1 := mapExcept_length hg
    have h2 : 0 < (q.groupBy.getD []).length :=
      List.length_pos.mpr (List.ne_nil_of_mem hgmem)
    omega
  have hgc : groupClause defs q.fromTable q.groupBy (some c).isSome =
      .ok (Frag.raw " GROUP BY " :: joinFrags ", " gs) := by
    unfold groupClause
    rw [if_pos (Or.inr (show (some c).isSome = true from rfl)), bind_ok_eq hg]
    show Except.ok (if gs.length > 0 then Frag.raw " GROUP BY " :: joinFrags ", " gs else []) = _
    rw [if_pos hglen]
  have hoc : prepareOrderByString defs q.fromTable q.orderBy (some c).isSome =
      .ok (Frag.raw " ORDER BY " ::
        joinFrags ", " ([Frag.raw "date_series.\"date\" ASC"] :: obs)) := by
    unfold prepareOrderByString
    rw [bind_ok_eq ho]
    show Except.ok (if ([Frag.raw "date_series.\"date\" ASC"] :: obs).length > 0 then
      Frag.raw " ORDER BY " :: joinFrags ", " ([Frag.raw "date_series.\"date\" ASC"] :: obs)
      else []) = _
    rw [if_pos (by simp)]
  have part1 := createQuery_ok_of_parts hc hs hgc hoc hf
  rw [show (ctePart (some c) : Sql) = c.cte from rfl,
      show selectFieldsWithCte (some c) us = seriesSelect c.column.name :: us from rfl,
      show fromPart defs q.fromTable (some c) = c.fromJoin from rfl,
      selectClause_cons] at part1
  refine ⟨part1, ?_, ?_⟩
  · intro g hgm hdt
    obtain ⟨sg, _, hsg⟩ := forall₂_mem_left (mapExcept_ok_forall₂ hg) hgm
    obtain ⟨cd, hcd, _⟩ := bind_ok (show (getColumnDefinition defs q.fromTable g.column >>=
      fun colDef => if g.type = GroupByType.datetime then
        pure [Frag.raw "date_series.\"date\""] else pure [Frag.raw colDef.internal]) = .ok sg
      from hsg)
    unfold prepareGroupBy
    rw [bind_ok_eq hcd]
    simp only [hdt, if_pos]
    rfl
  · refine ⟨unit, ?_⟩
    rw [hfrom]
    simp [textOf, fragText, getTableSql, String.append_assoc]

/-- `c3Query` with an explicit ORDER BY term and a limit, to exercise
the series-first ordering. -/
def c5Query : Query :=
  { c3Query with
    orderBy := some [({ column := "id", agg := none, direction := "DESC" } : OrderBySpec)],
    limit := some 5 }

/-- Compiled select fields of `c5Query`. -/
def c5Us : List Sql := [[.raw "t.\"id\"", .raw " as \"", .raw "id", .raw "\""]]

/-- Compiled group-by fields of `c5Query`. -/
def c5Gs : List Sql := [[.raw "date_series.\"date\""]]

/-- Compiled order-by terms of `c5Query`. -/
def c5Obs : List Sql := [[.raw "t.\"id\"", .raw " ", .raw "DESC"]]

/-- Compiled filter clause of `c5Query` (CTE present, so AND-joined). -/
def c5Fstr : Sql :=
  [.raw " ", .raw " AND ", .raw " ",
   .raw "t.\"timestamp\"", .raw " ", .raw ">=", .raw " ", .param (.date "2024-01-01"),
   .raw " AND ",
   .raw "t.\"timestamp\"", .raw " ", .raw "<", .raw " ", .param (.date "2024-02-01")]

/-- C5 at a concrete input. -/
theorem bucket_plan_statement_shape_witness :
    createQuery sampleDefs c5Query = .ok (
      c3Cte.cte ++
      (Frag.raw " SELECT " :: joinFrags ", " (seriesSelect c3Cte.column.name :: c5Us)) ++
      c3Cte.fromJoin ++ c5Fstr ++
      (Frag.raw " GROUP BY " :: joinFrags ", " c5Gs) ++
      (Frag.raw " ORDER BY " ::
        joinFrags ", " ([Frag.raw "date_series.\"date\" ASC"] :: c5Obs)) ++
      limitFrags c5Query.limit ++ [Frag.raw ";"]) ∧
    (∀ g ∈ c5Query.groupBy.getD [], g.type = GroupByType.datetime →
      prepareGroupBy sampleDefs c5Query.fromTable g = .ok [Frag.raw "date_series.\"date\""]) ∧
    (∃ unit, textOf c3Cte.fromJoin =
      " FROM date_series LEFT JOIN " ++ (sampleDefs c5Query.fromTable).table ++
      " ON DATE_TRUNC('" ++ unit ++ "', " ++ c3Cte.column.internal ++ ") = DATE_TRUNC('" ++
      unit ++ "', date_series.\"date\")") :=
  bucket_plan_statement_shape sampleDefs c5Query c3Cte c5Us c5Gs c5Obs c5Fstr
    (by rfl) (by rfl) (by rfl) (by rfl) (by rfl)

/-! ### Value-independence of the statement text -/

/-- Two filters identical except possibly in their literal value. -/
def FilterShapeEq (f g : Filter) : Prop :=
  f.type = g.type ∧ f.column = g.column ∧ f.operator = g.operator

/-- Truthiness of `query.limit` (`0`, like `undefined`, is falsy). -/
def limitTruthy : Option Nat → Bool
  | some n => decide (n ≠ 0)
  | none => false

/-- Two validated queries identical except in literal values: same
table, select list, group-by, order-by; filters pairwise identical in
type, column and operator; limits equally absent-or-zero or equally
positive. -/
def ValueEquiv (q1 q2 : Query) : Prop :=
  q1.fromTable = q2.fromTable ∧ q1.select = q2.select ∧ q1.groupBy = q2.groupBy ∧
  q1.orderBy = q2.orderBy ∧
  List.Forall₂ FilterShapeEq (q1.filter.getD []) (q2.filter.getD []) ∧
  limitTruthy q1.limit = limitTruthy q2.limit

theorem forall₂_filter_congr {R : α → α → Prop} {p : α → Bool} {l1 l2 : List α}
    (h : List.Forall₂ R l1 l2) (hp : ∀ a b, R a b → p a = p b) :
    List.Forall₂ R (l1.filter p) (l2.filter p) := by
  induction h with
  | nil => exact .nil
  | cons hr htl ih =>
    rename_i a b t1 t2
    by_cases hpa : p a
    · rw [List.filter_cons_of_pos hpa, List.filter_cons_of_pos (by rw [← hp a b hr]; exact hpa)]
      exact .cons hr ih
    · rw [List.filter_cons_of_neg hpa,
        List.filter_cons_of_neg (by rw [← hp a b hr]; exact hpa)]
      exact ih

theorem forall₂_find?_congr {R : α → α → Prop} {p : α → Bool} {l1 l2 : List α}
    (h : List.Forall₂ R l1 l2) (hp : ∀ a b, R a b → p a = p b) :
    (l1.find? p = none ∧ l2.find? p = none) ∨
    (∃ a b, R a b ∧ l1.find? p = some a ∧ l2.find? p = some b) := by
  induction h with
  | nil => exact Or.inl ⟨rfl, rfl⟩
  | cons hr htl ih =>
    rename_i a b t1 t2
    by_cases hpa : p a
    · exact Or.inr ⟨a, b, hr, List.find?_cons_of_pos _ hpa,
        List.find?_cons_of_pos _ (by rw [← hp a b hr]; exact hpa)⟩
    · rw [List.find?_cons_of_neg _ hpa,
        List.find?_cons_of_neg _ (show ¬ p b by rw [← hp a b hr]; exact hpa)]
      exact ih

theorem compileFilter_text_congr {t : TableFrom} {cols : List ColumnDefinition}
    {f g : Filter} (h : FilterShapeEq f g) :
    (compileFilter t cols f).map textOf = (compileFilter t cols g).map textOf := by
  obtain ⟨ht, hc, hop⟩ := h
  unfold compileFilter
  rw [hc, ht, hop]
  cases hfind : (cols.find? (fun c => decide (c.name = g.column))) with
  | none => rfl
  | some col =>
    by_cases hdt : g.type = FilterType.datetime
    · simp [hdt, Except.map, textOf, fragText]
    · by_cases hcast : col.name = "type" ∧ t = TableFrom.observations
      · simp [hdt, hcast, Except.map, textOf, fragText]
      · simp [hdt, hcast, Except.map, textOf, fragText]

theorem mapExcept_filter_text_congr {t : TableFrom} {cols : List ColumnDefinition}
    {fs1 fs2 : List Filter} (h : List.Forall₂ FilterShapeEq fs1 fs2) :
    (mapExcept (compileFilter t cols) fs1).map (List.map textOf) =
    (mapExcept (compileFilter t cols) fs2).map (List.map textOf) := by
  induction h with
  | nil => rfl
  | cons hr htl ih =>
    rename_i a b t1 t2
    have hab := @compileFilter_text_congr t cols _ _ hr
    simp only [mapExcept]
    cases h1 : compileFilter t cols a with
    | error e =>
      rw [h1] at hab
      cases h2 : compileFilter t cols b with
      | error e2 =>
        rw [h2] at hab
        simp only [Except.map] at hab
        injection hab with he
        simp only [Except.map, he]
      | ok s2 => rw [h2] at hab; exact absurd hab (by simp [Except.map])
    | ok s1 =>
      rw [h1] at hab
      cases h2 : compileFilter t cols b with
      | error e2 => rw [h2] at hab; exact absurd hab (by simp [Except.map])
      | ok s2 =>
        rw [h2] at hab
        simp only [Except.map, Except.ok.injEq] at hab
        cases hm1 : mapExcept (compileFilter t cols) t1 with
        | error e =>
          rw [hm1] at ih
          cases hm2 : mapExcept (compileFilter t cols) t2 with
          | error e2 =>
            rw [hm2] at ih
            simp only [Except.map] at ih
            simp only [Except.map]
            exact ih
          | ok ys2 => rw [hm2] at ih; exact absurd ih (by simp [Except.map])
        | ok ys1 =>
          rw [hm1] at ih
          cases hm2 : mapExcept (compileFilter t cols) t2 with
          | error e2 => rw [hm2] at ih; exact absurd ih (by simp [Except.map])
          | ok ys2 =>
            rw [hm2] at ih
            simp only [Except.map, Except.ok.injEq] at ih ⊢
            rw [List.map_cons, List.map_cons, hab, ih]

theorem textOf_cons (f : Frag) (l : Sql) : textOf (f :: l) = fragText f ++ textOf l := rfl

theorem sepJoin_map_textOf {ys1 ys2 : List Sql} (sep : String)
    (h : ys1.map textOf = ys2.map textOf) :
    textOf (joinFrags sep ys1) = textOf (joinFrags sep ys2) := by
  rw [textOf_joinFrags, textOf_joinFrags, h]

theorem prepareFilterString_text_congr {t : TableFrom} {cols : List ColumnDefinition}
    {fs1 fs2 : List Filter} (h : List.Forall₂ FilterShapeEq fs1 fs2) :
    (prepareFilterString t fs1 cols).map textOf =
    (prepareFilterString t fs2 cols).map textOf := by
  have hmap := @mapExcept_filter_text_congr t cols _ _ h
  unfold prepareFilterString
  cases h1 : mapExcept (compileFilter t cols) fs1 with
  | error e =>
    rw [h1] at hmap
    cases h2 : mapExcept (compileFilter t cols) fs2 with
    | error e2 =>
      rw [h2] at hmap
      simp only [Except.map] at hmap
      injection hmap with he
      rw [he]
    | ok ys2 => rw [h2] at hmap; exact absurd hmap (by simp [Except.map])
  | ok ys1 =>
    rw [h1] at hmap
    cases h2 : mapExcept (compileFilter t cols) fs2 with
    | error e2 => rw [h2] at hmap; exact absurd hmap (by simp [Except.map])
    | ok ys2 =>
      rw [h2] at hmap
      simp only [Except.map, Except.ok.injEq] at hmap
      show Except.ok (textOf (joinFrags " AND " ys1)) =
        Except.ok (textOf (joinFrags " AND " ys2))
      rw [sepJoin_map_textOf " AND " hmap]

theorem filterClause_text_congr (defs : Registry) (t : TableFrom)
    {o1 o2 : Option (List Filter)} (hasCte : Bool)
    (h : List.Forall₂ FilterShapeEq (o1.getD []) (o2.getD [])) :
    (filterClause defs t o1 hasCte).map textOf =
    (filterClause defs t o2 hasCte).map textOf := by
  have hlen := h.length_eq
  cases o1 with
  | none =>
    cases o2 with
    | none => rfl
    | some fs2 =>
      simp only [Option.getD_some, Option.getD_none] at hlen
      have : fs2 = [] := by
        cases fs2 with
        | nil => rfl
        | cons a t2 => exact absurd hlen (by simp)
      subst this
      rfl
  | some fs1 =>
    cases o2 with
    | none =>
      simp only [Option.getD_some, Option.getD_none] at hlen
      have : fs1 = [] := by
        cases fs1 with
        | nil => rfl
        | cons a t1 => exact absurd hlen (by simp)
      subst this
      rfl
    | some fs2 =>
      simp only [Option.getD_some] at hlen h
      simp only [filterClause]
      by_cases hl : fs1.length > 0
      · rw [if_pos hl, if_pos (show fs2.length > 0 by omega)]
        have hpfs := @prepareFilterString_text_congr t ((defs t).columns) _ _ h
        cases h1 : prepareFilterString t fs1 (defs t).columns with
        | error e =>
          rw [h1] at hpfs
          cases h2 : prepareFilterString t fs2 (defs t).columns with
          | error e2 =>
            rw [h2] at hpfs
            simp only [Except.map] at hpfs
            injection hpfs with he
            rw [he]
          | ok s2 => rw [h2] at hpfs; exact absurd hpfs (by simp [Except.map])
        | ok s1 =>
          rw [h1] at hpfs
          cases h2 : prepareFilterString t fs2 (defs t).columns with
          | error e2 => rw [h2] at hpfs; exact absurd hpfs (by simp [Except.map])
          | ok s2 =>
            rw [h2] at hpfs
            simp only [Except.map, Except.ok.injEq] at hpfs
            simp only [Except.map, bind, Except.bind, pure, Except.pure, Except.ok.injEq]
            simp only [textOf_cons]
            rw [hpfs]
      · rw [if_neg hl, if_neg (show ¬ fs2.length > 0 by omega)]

/-- The value-independent skeleton of a bucket plan: statement text of
the CTE, the join fragments, and the resolved column. -/
def cteSkeleton (c : DateRangeCte) : String × Sql × ColumnDefinition :=
  (textOf c.cte, c.fromJoin, c.column)

theorem minDateFilter_eq_find {dtf : List Filter} (h : dtf.length > 1) :
    minDateFilter dtf = dtf.find? isLowerOp := by
  unfold minDateFilter; rw [if_pos h]

theorem minDateFilter_eq_none {dtf : List Filter} (h : ¬ dtf.length > 1) :
    minDateFilter dtf = none := by
  unfold minDateFilter; rw [if_neg h]

theorem maxDateFilter_eq_find {dtf : List Filter} (h : dtf.length > 1) :
    maxDateFilter dtf = dtf.find? isUpperOp := by
  unfold maxDateFilter; rw [if_pos h]

theorem maxDateFilter_eq_none {dtf : List Filter} (h : ¬ dtf.length > 1) :
    maxDateFilter dtf = none := by
  unfold maxDateFilter; rw [if_neg h]

theorem dateTimeFiltersOf_congr {fs1 fs2 : List Filter}
    (h : List.Forall₂ FilterShapeEq fs1 fs2) :
    List.Forall₂ FilterShapeEq (dateTimeFiltersOf fs1) (dateTimeFiltersOf fs2) :=
  forall₂_filter_congr h (fun a b hab => by
    show decide (a.type = FilterType.datetime) = decide (b.type = FilterType.datetime)
    rw [hab.1])

/-- The planner's result, up to literal values: either the same error,
or `none` on both, or plans with the same statement text, join and
column. -/
theorem createDateRangeCte_congr (defs : Registry) (t : TableFrom)
    (groupBy : List GroupByEntry) {fs1 fs2 : List Filter}
    (h : List.Forall₂ FilterShapeEq fs1 fs2) :
    (createDateRangeCte defs t fs1 groupBy).map (Option.map cteSkeleton) =
    (createDateRangeCte defs t fs2 groupBy).map (Option.map cteSkeleton) := by
  unfold createDateRangeCte
  cases hgbf : groupBy.filter (fun g => decide (g.type = GroupByType.datetime)) with
  | nil => rfl
  | cons a tl =>
    cases tl with
    | cons b tl2 => rfl
    | nil =>
      obtain ⟨gt, gcol, gtu⟩ := a
      cases gtu with
      | none => rfl
      | some unit =>
        have hdt := dateTimeFiltersOf_congr h
        have hlen := hdt.length_eq
        by_cases hg1 : (dateTimeFiltersOf fs1).length > 1
        · have hg2 : (dateTimeFiltersOf fs2).length > 1 := by omega
          rw [minDateFilter_eq_find hg1, minDateFilter_eq_find hg2,
            maxDateFilter_eq_find hg1, maxDateFilter_eq_find hg2]
          rcases forall₂_find?_congr hdt (fun a b hab => by
              show isLowerOp a = isLowerOp b
              unfold isLowerOp; rw [hab.2.2]) with ⟨hn1, hn2⟩ | ⟨lo1, lo2, hrlo, hf1, hf2⟩
          · rw [hn1, hn2]
          · rw [hf1, hf2]
            rcases forall₂_find?_congr hdt (fun a b hab => by
                show isUpperOp a = isUpperOp b
                unfold isUpperOp; rw [hab.2.2]) with ⟨hn1, hn2⟩ | ⟨hi1, hi2, hrhi, hh1, hh2⟩
            · rw [hn1, hn2]
            · rw [hh1, hh2]
              by_cases hcond : lo1.column ≠ gcol ∨ hi1.column ≠ gcol
              · have hcond2 : lo2.column ≠ gcol ∨ hi2.column ≠ gcol := by
                  rw [← hrlo.2.1, ← hrhi.2.1]; exact hcond
                simp [hcond, hcond2]
              · have hcond2 : ¬ (lo2.column ≠ gcol ∨ hi2.column ≠ gcol) := by
                  rw [← hrlo.2.1, ← hrhi.2.1]; exact hcond
                cases hcd : getColumnDefinition defs t lo1.column with
                | error e =>
                  have hcd2 : getColumnDefinition defs t lo2.column = .error e := by
                    rw [← hrlo.2.1]; exact hcd
                  simp [hcond, hcond2, hcd, hcd2]
                | ok sc =>
                  have hcd2 : getColumnDefinition defs t lo2.column = .ok sc := by
                    rw [← hrlo.2.1]; exact hcd
                  simp [hcond, hcond2, hcd, hcd2, Except.map, Option.map, cteSkeleton,
                    textOf, fragText]
        · have hg2 : ¬ (dateTimeFiltersOf fs2).length > 1 := by omega
          rw [minDateFilter_eq_none hg1, minDateFilter_eq_none hg2]

theorem limitFrags_text_congr {l1 l2 : Option Nat} (h : limitTruthy l1 = limitTruthy l2) :
    textOf (limitFrags l1) = textOf (limitFrags l2) := by
  cases l1 with
  | none =>
    cases l2 with
    | none => rfl
    | some n2 =>
      simp only [limitTruthy] at h
      have : n2 = 0 := by
        by_contra hne
        rw [decide_eq_true hne] at h
        exact absurd h (by simp)
      subst this
      rfl
  | some n1 =>
    cases l2 with
    | none =>
      simp only [limitTruthy] at h
      have : n1 = 0 := by
        by_contra hne
        rw [decide_eq_true hne] at h
        exact absurd h (by simp)
      subst this
      rfl
    | some n2 =>
      simp only [limitTruthy, decide_eq_decide] at h
      by_cases h1 : n1 = 0
      · have h2 : n2 = 0 := by
          by_contra h2
          exact (h.mpr h2) h1
        rw [show limitFrags (some n1) = [] from by rw [h1]; rfl,
          show limitFrags (some n2) = [] from by rw [h2]; rfl]
      · have h2 : ¬ n2 = 0 := fun h2 => h1 (by exact absurd (h.mp h1) (by simp [h2]))
        rw [show limitFrags (some n1) = [.raw " LIMIT ", .param (.num (n1 : Int))] from by
            simp [limitFrags, h1],
          show limitFrags (some n2) = [.raw " LIMIT ", .param (.num (n2 : Int))] from by
            simp [limitFrags, h2]]
        rfl


theorem createQuery_text_congr (defs : Registry) {q1 q2 : Query} (h : ValueEquiv q1 q2) :
    (createQuery defs q1).map textOf = (createQuery defs q2).map textOf := by
  obtain ⟨hfrom, hsel, hgb, hob, hfil, hlim⟩ := h
  unfold createQuery
  rw [← hfrom, ← hsel, ← hgb, ← hob]
  have hcrel := createDateRangeCte_congr defs q1.fromTable (q1.groupBy.getD []) hfil
  cases hc1 : createDateRangeCte defs q1.fromTable (q1.filter.getD []) (q1.groupBy.getD []) with
  | error e =>
    rw [hc1] at hcrel
    cases hc2 : createDateRangeCte defs q1.fromTable (q2.filter.getD [])
        (q1.groupBy.getD []) with
    | error e2 =>
      rw [hc2] at hcrel
      simp only [Except.map] at hcrel
      injection hcrel with he
      rw [he]
      rfl
    | ok o2 => rw [hc2] at hcrel; exact absurd hcrel (by simp [Except.map])
  | ok o1 =>
    rw [hc1] at hcrel
    cases hc2 : createDateRangeCte defs q1.fromTable (q2.filter.getD [])
        (q1.groupBy.getD []) with
    | error e2 => rw [hc2] at hcrel; exact absurd hcrel (by simp [Except.map])
    | ok o2 =>
      rw [hc2] at hcrel
      simp only [Except.map, Except.ok.injEq] at hcrel
      simp only [bind, Except.bind]
      cases hus : mapExcept (compileSelectField defs q1.fromTable) q1.select with
      | error e => rfl
      | ok us =>
        simp only [bind, Except.bind]
        have hsome : o1.isSome = o2.isSome := by
          cases o1 <;> cases o2 <;> simp_all [Option.map]
        rw [← hsome]
        cases hgc : groupClause defs q1.fromTable q1.groupBy o1.isSome with
        | error e => rfl
        | ok gstr =>
          simp only [bind, Except.bind]
          cases hoc : prepareOrderByString defs q1.fromTable q1.orderBy o1.isSome with
          | error e => rfl
          | ok ostr =>
            simp only [bind, Except.bind]
            have hfc := filterClause_text_congr defs q1.fromTable o1.isSome hfil
            cases hf1 : filterClause defs q1.fromTable q1.filter o1.isSome with
            | error e =>
              rw [hf1] at hfc
              cases hf2 : filterClause defs q1.fromTable q2.filter o1.isSome with
              | error e2 =>
                rw [hf2] at hfc
                simp only [Except.map] at hfc
                injection hfc with he
                rw [he]
              | ok s2 => rw [hf2] at hfc; exact absurd hfc (by simp [Except.map])
            | ok fstr1 =>
              rw [hf1] at hfc
              cases hf2 : filterClause defs q1.fromTable q2.filter o1.isSome with
              | error e2 => rw [hf2] at hfc; exact absurd hfc (by simp [Except.map])
              | ok fstr2 =>
                rw [hf2] at hfc
                simp only [Except.map, Except.ok.injEq] at hfc
                simp only [bind, Except.bind, pure, Except.pure, Except.map,
                  Except.ok.injEq]
                cases o1 with
                | none =>
                  cases o2 with
                  | some c2 => exact absurd hcrel (by simp [Option.map])
                  | none =>
                    simp only [textOf_append]
                    rw [limitFrags_text_congr hlim, hfc]
                | some c1 =>
                  cases o2 with
                  | none => exact absurd hcrel (by simp [Option.map])
                  | some c2 =>
                    simp only [Option.map, Option.some.injEq, cteSkeleton,
                      Prod.mk.injEq] at hcrel
                    obtain ⟨htext, hjoin, hcol⟩ := hcrel
                    simp only [textOf_append, ctePart, fromPart, selectFieldsWithCte]
                    rw [htext, hjoin, hcol, limitFrags_text_congr hlim, hfc]

theorem mandatory_shape_eq (t : TableFrom) (p1 p2 : String) :
    List.Forall₂ FilterShapeEq (getMandatoryFilter t p1) (getMandatoryFilter t p2) := by
  cases t <;>
    first
      | exact .cons ⟨rfl, rfl, rfl⟩ .nil
      | exact .cons ⟨rfl, rfl, rfl⟩ (.cons ⟨rfl, rfl, rfl⟩ .nil)

/-- C2 (amended): the compiled statement text is independent of every
literal value — filter values, the tenant identifier, the CTE range
bounds and the (positive) limit value live only in the bound-parameter
list.  Two queries identical except in those values, with limits
equally absent-or-zero or equally positive, compile to identical
statement text (or fail with the identical error); likewise after
tenant enrichment with any two tenant ids.  The zero/positive limit
caveat is forced by the counterexample: a zero limit changes the text
itself, because the truthiness test drops the LIMIT clause. -/
theorem statement_text_value_independent (defs : Registry) (q1 q2 : Query)
    (h : ValueEquiv q1 q2) :
    (createQuery defs q1).map textOf = (createQuery defs q2).map textOf ∧
    ∀ p1 p2 : String,
      (enrichAndCreateQuery defs p1 q1).map textOf =
      (enrichAndCreateQuery defs p2 q2).map textOf := by
  refine ⟨createQuery_text_congr defs h, fun p1 p2 => ?_⟩
  obtain ⟨hfrom, hsel, hgb, hob, hfil, hlim⟩ := h
  refine createQuery_text_congr defs ⟨hfrom, hsel, hgb, hob, ?_, hlim⟩
  show List.Forall₂ FilterShapeEq
    (q1.filter.getD [] ++ getMandatoryFilter q1.fromTable p1)
    (q2.filter.getD [] ++ getMandatoryFilter q2.fromTable p2)
  rw [← hfrom]
  exact List.rel_append hfil (mandatory_shape_eq q1.fromTable p1 p2)

/-- C2 fails as stated on the zero-limit edge: two queries identical
except in the limit literal (1 vs 0) compile to different statement
text, because a zero limit is falsy and drops the LIMIT clause. -/
theorem statement_text_counterexample :
    (createQuery sampleDefs { minimalQuery TableFrom.traces "id" with
      limit := some 1 }).map textOf =
      .ok " SELECT t.\"id\" as \"id\" FROM traces t LIMIT ?;" ∧
    (createQuery sampleDefs { minimalQuery TableFrom.traces "id" with
      limit := some 0 }).map textOf =
      .ok " SELECT t.\"id\" as \"id\" FROM traces t;" ∧
    (" SELECT t.\"id\" as \"id\" FROM traces t LIMIT ?;" : String) ≠
      " SELECT t.\"id\" as \"id\" FROM traces t;" :=
  ⟨rfl, rfl, by decide⟩

/-- A query with one string filter and a limit. -/
def c2aQuery : Query :=
  { fromTable := .traces, select := [{ column := "id", agg := none }],
    filter := some [{ type := .string, column := "id", operator := "=", value := .str "x" }],
    groupBy := none, orderBy := none, limit := some 3 }

/-- `c2aQuery` with different literal values only. -/
def c2bQuery : Query :=
  { fromTable := .traces, select := [{ column := "id", agg := none }],
    filter := some [{ type := .string, column := "id", operator := "=", value := .str "y" }],
    groupBy := none, orderBy := none, limit := some 7 }

/-- C2 (amended) at concrete inputs. -/
theorem statement_text_value_independent_witness :
    (createQuery sampleDefs c2aQuery).map textOf =
      (createQuery sampleDefs c2bQuery).map textOf ∧
    (enrichAndCreateQuery sampleDefs "pa" c2aQuery).map textOf =
      (enrichAndCreateQuery sampleDefs "pb" c2bQuery).map textOf :=
  ⟨(statement_text_value_independent sampleDefs c2aQuery c2bQuery
      ⟨rfl, rfl, rfl, rfl, .cons ⟨rfl, rfl, rfl⟩ .nil, rfl⟩).1,
   (statement_text_value_independent sampleDefs c2aQuery c2bQuery
      ⟨rfl, rfl, rfl, rfl, .cons ⟨rfl, rfl, rfl⟩ .nil, rfl⟩).2 "pa" "pb"⟩

end QueryBuilder
